import Mathlib

/-!
# IT7260 single-touch screen driver (it7260_sts.c)

A shallow embedding of the driver's bus transport, decode cycle, controller
identification and power entry points.

* Bytes (`unsigned char`) are natural numbers below 256; every byte that
  enters a buffer from the bus is reduced modulo 256.
* `int` results are integers.
* The environment is an explicit `World`: the adapter's answer to the n-th
  `i2c_transfer` call, the number of calls made so far and the log of every
  call the driver makes into the kernel, in program order.
* `dev_info` / `dev_err` only print; they are not part of the log.
* The driver never looks at the result of a read, so what a read leaves in
  its buffer is part of the adapter's answer (`Xfer.data`) and independent of
  the returned value; a transfer that stores nothing leaves the buffer as it
  was.
* The busy polls of the identification are loops without a bound; their model
  takes a fuel argument and returns `none` when it runs out.
-/

namespace IT7260

/-! ## Buffer addresses -/

/-- Command buffer (write only). -/
def CMD_BUF : Nat := 0x20
/-- System command buffer (write only). -/
def SYS_CMD_BUF : Nat := 0x40
/-- Query buffer (read only). -/
def QUERY_BUF : Nat := 0x80
/-- Command response buffer (read only). -/
def CMD_RSP_BUF : Nat := 0xA0
/-- System command response buffer (read only). -/
def SYS_CMD_RSP_BUF : Nat := 0xC0
/-- Point information buffer (read only). -/
def POINT_INFO_BUF : Nat := 0xE0

/-! ## Kernel interface -/

/-- Message flags used by the driver (linux/i2c.h). -/
inductive MsgFlag
  | I2C_M_NOSTART
  | I2C_M_RD
  | I2C_M_WR
  deriving DecidableEq, Repr

/-- One `struct i2c_msg` as handed to `i2c_transfer`: its flags, its `len`
and, for a transmit message, the bytes of its buffer (empty for a receive
message, whose buffer is filled by the adapter). -/
structure I2cMsg where
  flags : MsgFlag
  len : Nat
  out : List Nat
  deriving DecidableEq, Repr

/-- Key codes the driver reports (linux/input.h). -/
inductive KeyCode
  | KEY_HOME
  | KEY_MENU
  | KEY_BACK
  | KEY_POWER
  | BTN_TOUCH
  deriving DecidableEq, Repr

/-- Absolute axes the driver reports (linux/input.h). -/
inductive AbsAxis
  | ABS_X
  | ABS_Y
  | ABS_PRESSURE
  deriving DecidableEq, Repr

/-- A call from the driver into the kernel. -/
inductive Effect
  | mutex_lock
  | mutex_unlock
  | enable_irq (irq : Nat)
  | disable_irq_nosync (irq : Nat)
  | enable_irq_wake (irq : Nat)
  | disable_irq_wake (irq : Nat)
  | schedule_delayed_work (delay : Nat)
  | i2c_transfer (addr : Nat) (msgs : List I2cMsg)
  | input_report_key (code : KeyCode) (value : Bool)
  | input_report_abs (axis : AbsAxis) (value : Int)
  | input_sync
  deriving DecidableEq, Repr

/-- What the adapter does on one `i2c_transfer` call: the value it returns
(a negative errno or the number of messages executed) and the bytes it stores
into the receive buffer of the call, if any. -/
structure Xfer where
  ret : Int
  data : List Nat

/-- The environment of the driver. -/
structure World where
  bus : Nat → Xfer
  n : Nat
  log : List Effect

/-- The fields of `struct i2c_client` the driver uses, with the answer of
`device_may_wakeup(&client->dev)`. -/
structure i2c_client where
  addr : Nat
  irq : Nat
  may_wakeup : Bool
  deriving DecidableEq, Repr

/-- The fields of `struct it7260_ts_priv` the driver reads. -/
structure it7260_ts_priv where
  client : i2c_client
  irq : Nat
  deriving DecidableEq, Repr

/-- Append one call to the log. -/
def World.emit (w : World) (e : Effect) : World :=
  ⟨w.bus, w.n, w.log ++ [e]⟩

/-- The receive buffer after the adapter stored `data` into it: at most `len`
bytes, at most the bytes delivered, never past the end of the buffer. -/
def storeBytes : List Nat → List Nat → Nat → List Nat
  | [], _, _ => []
  | b :: bs, _, 0 => b :: bs
  | b :: bs, [], _ + 1 => b :: bs
  | _ :: bs, d :: ds, len + 1 => (d % 256) :: storeBytes bs ds len

/-- The call `i2c_transfer(client->adapter, msgs, num)`: logs the call, takes
the adapter's next answer and returns it. -/
def i2c_transfer (w : World) (addr : Nat) (msgs : List I2cMsg) : Xfer × World :=
  (w.bus w.n, ⟨w.bus, w.n + 1, w.log ++ [Effect.i2c_transfer addr msgs]⟩)

/-! ## Bus transport -/

/-- The function `i2c_master_read_it7260`: two messages (the buffer address
with `I2C_M_NOSTART`, then a receive of `len_data` bytes); returns
`(ret == 2) ? len_data : ret`, the buffer as the adapter left it, and the
world. -/
def i2c_master_read_it7260 (w : World) (client : i2c_client) (buf_index : Nat)
    (buf_data : List Nat) (len_data : Nat) : Int × List Nat × World :=
  let msgs : List I2cMsg :=
    [⟨MsgFlag.I2C_M_NOSTART, 1, [buf_index]⟩, ⟨MsgFlag.I2C_M_RD, len_data, []⟩]
  let r := i2c_transfer w client.addr msgs
  let ret := r.1.ret
  (if ret = 2 then (len_data : Int) else ret, storeBytes buf_data r.1.data len_data, r.2)

/-- Size of the local `unsigned char buf[2]` of `i2c_master_write_it7260`. -/
def WRITE_BUF_SIZE : Nat := 2

/-- The function `i2c_master_write_it7260`: one transmit message of
`len_data + 1` bytes, the buffer address followed by the first `len_data`
bytes of `buf_data`; returns `(ret == 1) ? sizeof(buf) : ret`. The message is
modelled by the bytes the function copies and sends, also when `len_data + 1`
exceeds the `WRITE_BUF_SIZE` bytes of its local buffer. -/
def i2c_master_write_it7260 (w : World) (client : i2c_client) (buf_index : Nat)
    (buf_data : List Nat) (len_data : Nat) : Int × World :=
  let msgs : List I2cMsg :=
    [⟨MsgFlag.I2C_M_WR, len_data + 1, buf_index :: buf_data.take len_data⟩]
  let r := i2c_transfer w client.addr msgs
  let ret := r.1.ret
  (if ret = 1 then (WRITE_BUF_SIZE : Int) else ret, r.2)

/-! ## Decode cycle -/

/-- The assignment `xpos = ((buf[3] & 0x0F) << 8) | buf[2]` (unsigned short). -/
def xpos (buf : List Nat) : Nat :=
  ((((buf.getD 3 0) &&& 0x0F) <<< 8) ||| buf.getD 2 0) % 65536

/-- The assignment `ypos = ((buf[3] & 0xF0) << 4) | buf[4]` (unsigned short). -/
def ypos (buf : List Nat) : Nat :=
  ((((buf.getD 3 0) &&& 0xF0) <<< 4) ||| buf.getD 4 0) % 65536

/-- The label `out:` of `it7260_ts_poscheck`. -/
def poscheck_out (priv : it7260_ts_priv) (w : World) : World :=
  (w.emit Effect.mutex_unlock).emit (Effect.enable_irq priv.irq)

/-- The delayed work `it7260_ts_poscheck`. -/
def it7260_ts_poscheck (priv : it7260_ts_priv) (w : World) : World :=
  let w := w.emit Effect.mutex_lock
  let rq := i2c_master_read_it7260 w priv.client QUERY_BUF [0] 1
  let query := rq.2.1.getD 0 0
  let w := rq.2.2
  if query &&& 0x80 = 0 then
    poscheck_out priv w
  else
    let rb := i2c_master_read_it7260 w priv.client POINT_INFO_BUF (List.replicate 14 0) 14
    let buf := rb.2.1
    let w := rb.2.2
    if buf.getD 0 0 = 0x41 then
      if buf.getD 1 0 = 0x04 then
        let w := w.emit (Effect.input_report_key KeyCode.KEY_HOME (buf.getD 2 0 != 0))
        poscheck_out priv (w.emit Effect.input_sync)
      else if buf.getD 1 0 = 0x03 then
        let w := w.emit (Effect.input_report_key KeyCode.KEY_MENU (buf.getD 2 0 != 0))
        poscheck_out priv (w.emit Effect.input_sync)
      else if buf.getD 1 0 = 0x02 then
        let w := w.emit (Effect.input_report_key KeyCode.KEY_BACK (buf.getD 2 0 != 0))
        poscheck_out priv (w.emit Effect.input_sync)
      else if buf.getD 1 0 = 0x01 then
        let w := w.emit (Effect.input_report_key KeyCode.KEY_POWER (buf.getD 2 0 != 0))
        poscheck_out priv (w.emit Effect.input_sync)
      else
        poscheck_out priv w
    else
      let pressure := buf.getD 5 0
      let w := w.emit (Effect.input_report_key KeyCode.BTN_TOUCH (pressure != 0))
      let w := w.emit (Effect.input_report_abs AbsAxis.ABS_X (ypos buf : Nat))
      let w := w.emit (Effect.input_report_abs AbsAxis.ABS_Y (xpos buf : Nat))
      let w := w.emit (Effect.input_report_abs AbsAxis.ABS_PRESSURE (pressure : Nat))
      poscheck_out priv (w.emit Effect.input_sync)

/-- The interrupt handler `it7260_ts_isr`, with the kernel constant `HZ` as a
parameter; returns the world (its result is always `IRQ_HANDLED`). -/
def it7260_ts_isr (HZ : Nat) (irq : Nat) (w : World) : World :=
  (w.emit (Effect.disable_irq_nosync irq)).emit (Effect.schedule_delayed_work (HZ / 20))

/-! ## Controller handshake -/

/-- The loop `do { read QUERY_BUF into query } while (query & 0x01)`; `fuel`
bounds the number of iterations, `query` is the variable before the loop.
Returns the variable after the loop. -/
def query_poll (client : i2c_client) : Nat → World → Nat → Option (Nat × World)
  | 0, _, _ => none
  | fuel + 1, w, query =>
    let r := i2c_master_read_it7260 w client QUERY_BUF [query] 1
    let q := r.2.1.getD 0 0
    if q &&& 0x01 = 0 then some (q, r.2.2) else query_poll client fuel r.2.2 q

/-- The function `it7260_identify_capsensor`; `none` when a busy poll did not
end within `fuel` iterations. Bytes of the local buffer that the function
never reads before writing them are taken as 0. -/
def it7260_identify_capsensor (fuel : Nat) (client : i2c_client) (w : World) :
    Option (Int × World) :=
  match query_poll client fuel w 0 with
  | none => none
  | some (query, w) =>
    let buf := (List.replicate 10 0).set 0 0x00
    let rw := i2c_master_write_it7260 w client CMD_BUF buf 1
    match query_poll client fuel rw.2 query with
    | none => none
    | some (_, w) =>
      let rb := i2c_master_read_it7260 w client CMD_RSP_BUF (List.replicate 10 0) 10
      let buf := rb.2.1
      if buf.getD 1 0 ≠ 'I'.toNat ∨ buf.getD 2 0 ≠ 'T'.toNat ∨ buf.getD 3 0 ≠ 'E'.toNat then
        some (-1, rb.2.2)
      else
        some (0, rb.2.2)

/-! ## Power entry points -/

/-- The function `it7260_ts_suspend`. -/
def it7260_ts_suspend (priv : it7260_ts_priv) (client : i2c_client) (w : World) :
    Int × World :=
  let suspend_cmd : List Nat := [0x04, 0x00, 0x02]
  if client.may_wakeup then
    let w := w.emit (Effect.enable_irq_wake priv.irq)
    let rw := i2c_master_write_it7260 w client CMD_BUF suspend_cmd 3
    if (suspend_cmd.length : Int) = rw.1 then (0, rw.2) else (-1, rw.2)
  else
    (-1, w)

/-- The function `it7260_ts_resume`. Its local `query` is only written, never
read; it starts as 0 here. -/
def it7260_ts_resume (priv : it7260_ts_priv) (client : i2c_client) (w : World) :
    Int × World :=
  if client.may_wakeup then
    let r := i2c_master_read_it7260 w client QUERY_BUF [0] 1
    let w := r.2.2.emit (Effect.disable_irq_wake priv.irq)
    (0, w)
  else
    (-1, w)

/-! ## Observations on the log -/

/-- Calls into the event sink. -/
def isInputEvent : Effect → Bool
  | Effect.input_report_key _ _ => true
  | Effect.input_report_abs _ _ => true
  | Effect.input_sync => true
  | _ => false

/-- Bus transactions. -/
def isBusOp : Effect → Bool
  | Effect.i2c_transfer _ _ => true
  | _ => false

/-- The calls into the event sink, in order. -/
def inputEvents (log : List Effect) : List Effect := log.filter isInputEvent

/-- The bus transactions, in order. -/
def busOps (log : List Effect) : List Effect := log.filter isBusOp

/-- Whether the session mutex is held after the calls of the log, starting
from `held`. -/
def mutexHeld : Bool → List Effect → Bool
  | held, [] => held
  | _, Effect.mutex_lock :: es => mutexHeld true es
  | _, Effect.mutex_unlock :: es => mutexHeld false es
  | held, _ :: es => mutexHeld held es

/-- The bus transaction issued by `i2c_master_read_it7260`. -/
def readOp (client : i2c_client) (buf_index len_data : Nat) : Effect :=
  Effect.i2c_transfer client.addr
    [⟨MsgFlag.I2C_M_NOSTART, 1, [buf_index]⟩, ⟨MsgFlag.I2C_M_RD, len_data, []⟩]

/-- The bus transaction issued by `i2c_master_write_it7260`. -/
def writeOp (client : i2c_client) (buf_index : Nat) (payload : List Nat) : Effect :=
  Effect.i2c_transfer client.addr
    [⟨MsgFlag.I2C_M_WR, payload.length + 1, buf_index :: payload⟩]

/-- The query variable of a decode cycle started in `w`, after its query read. -/
def queryByte (w : World) : Nat := (storeBytes [0] (w.bus w.n).data 1).getD 0 0

/-- The report buffer of a decode cycle started in `w`, after its report read. -/
def reportBlock (w : World) : List Nat :=
  storeBytes (List.replicate 14 0) (w.bus (w.n + 1)).data 14

/-- The key selected by `report[1]` of a key report. -/
def keyOf (b : Nat) : Option KeyCode :=
  if b = 0x01 then some KeyCode.KEY_POWER
  else if b = 0x02 then some KeyCode.KEY_BACK
  else if b = 0x03 then some KeyCode.KEY_MENU
  else if b = 0x04 then some KeyCode.KEY_HOME
  else none

/-- The packed coordinate layout as the specification words it: `report[2]`
is the low byte of `cx`, the low nibble of `report[3]` is `cx >> 8`,
`report[4]` is the low byte of `cy`, the high nibble of `report[3]` is
`cy >> 8`. The other bytes are given by `tag`, `b1`, `pressure` and `rest`. -/
def packReport (tag b1 pressure : Nat) (rest : List Nat) (cx cy : Nat) : List Nat :=
  [tag, b1, cx &&& 0xFF, (cx >>> 8) ||| ((cy >>> 8) <<< 4), cy &&& 0xFF, pressure] ++ rest

/-- The world of a decode cycle started in `w`, after its query read. -/
def afterQuery (priv : it7260_ts_priv) (w : World) : World :=
  ⟨w.bus, w.n + 1, (w.log ++ [Effect.mutex_lock]) ++ [readOp priv.client QUERY_BUF 1]⟩

/-- The world of a decode cycle started in `w`, after its report read. -/
def afterReport (priv : it7260_ts_priv) (w : World) : World :=
  ⟨w.bus, w.n + 1 + 1, (afterQuery priv w).log ++ [readOp priv.client POINT_INFO_BUF 14]⟩

/-- The events of a touch report whose pressure byte and coordinates are 0. -/
def releaseEvents : List Effect :=
  [Effect.input_report_key KeyCode.BTN_TOUCH false,
   Effect.input_report_abs AbsAxis.ABS_X 0,
   Effect.input_report_abs AbsAxis.ABS_Y 0,
   Effect.input_report_abs AbsAxis.ABS_PRESSURE 0,
   Effect.input_sync]

/-- The adapter stored a query byte with the busy bit (bit 0) set. -/
def answersBusy (x : Xfer) : Bool :=
  match x.data with
  | b :: _ => (b % 256) &&& 0x01 != 0
  | [] => false

/-- The adapter stored a query byte with the busy bit (bit 0) clear. -/
def answersReady (x : Xfer) : Bool :=
  match x.data with
  | b :: _ => (b % 256) &&& 0x01 == 0
  | [] => false

/-! ## Concrete sessions and worlds -/

/-- A wake-capable client at bus address 0x46 with interrupt line 7. -/
def wakeClient : i2c_client := ⟨0x46, 7, true⟩

/-- A client that is not wake-capable. -/
def plainClient : i2c_client := ⟨0x46, 7, false⟩

/-- The session of `wakeClient`. -/
def wakePriv : it7260_ts_priv := ⟨wakeClient, 7⟩

/-- The session of `plainClient`. -/
def plainPriv : it7260_ts_priv := ⟨plainClient, 7⟩

/-- A fresh world whose adapter gives the listed answers in order and then
fails every transfer with -5 (EIO), storing nothing. -/
def scripted (answers : List Xfer) : World :=
  ⟨fun n => answers.getD n ⟨-5, []⟩, 0, []⟩

/-- Query byte 0x80, then the key report power pressed. -/
def keyPowerWorld : World :=
  scripted [⟨2, [0x80]⟩, ⟨2, [0x41, 0x01, 0x01, 0, 0, 0, 0, 0, 0, 0, 0, 0, 0, 0]⟩]

/-- Query byte 0x80, then a key report with the unknown key index 0x05. -/
def keyUnknownWorld : World :=
  scripted [⟨2, [0x80]⟩, ⟨2, [0x41, 0x05, 0x01, 0, 0, 0, 0, 0, 0, 0, 0, 0, 0, 0]⟩]

/-- Query byte 0x80, then the coordinate report of the specification scenario. -/
def touchWorld : World :=
  scripted [⟨2, [0x80]⟩, ⟨2, [0x00, 0x00, 0x10, 0x23, 0x45, 0x07, 0, 0, 0, 0, 0, 0, 0, 0]⟩]

/-- Query byte 0x00: no data ready. -/
def idleWorld : World := scripted [⟨2, [0x00]⟩]

/-- The query read fails and stores nothing. -/
def queryFailWorld : World := scripted []

/-- Query byte 0x80, then the report read fails and stores nothing. -/
def reportFailWorld : World := scripted [⟨2, [0x80]⟩, ⟨-5, []⟩]

/-- The adapter accepts the single message of a write. -/
def writeAcceptedWorld : World := scripted [⟨1, []⟩]

/-- One busy poll, a ready poll, the accepted command, a ready poll, then the
identification response of an ITE controller. -/
def identifyWorld : World :=
  scripted [⟨2, [0x01]⟩, ⟨2, [0x00]⟩, ⟨1, []⟩, ⟨2, [0x00]⟩,
    ⟨2, [0x0A, 0x49, 0x54, 0x45, 0x37, 0x32, 0x36, 0x30, 0, 0]⟩]

/-- Both query polls fail with -5 and store nothing, the command is accepted,
and the response read delivers the identification of an ITE controller. -/
def identifyQueryFailWorld : World :=
  scripted [⟨-5, []⟩, ⟨1, []⟩, ⟨-5, []⟩,
    ⟨2, [0x0A, 0x49, 0x54, 0x45, 0x37, 0x32, 0x36, 0x30, 0, 0]⟩]

/-- Ready polls and an accepted command, then the response read fails with -5
and stores nothing. -/
def identifyResponseFailWorld : World :=
  scripted [⟨2, [0x00]⟩, ⟨1, []⟩, ⟨2, [0x00]⟩, ⟨-5, []⟩]

/-- The adapter executes only the first of the two messages of a read and
reports 1. -/
def shortReadWorld : World := scripted [⟨1, []⟩]

/-- Query byte 0x80, then a coordinate report whose bytes 2 to 5 are 0xFF. -/
def maxTouchWorld : World :=
  scripted [⟨2, [0x80]⟩, ⟨2, [0x00, 0x00, 0xFF, 0xFF, 0xFF, 0xFF, 0, 0, 0, 0, 0, 0, 0, 0]⟩]

/-- The world after a busy poll of the identification that ends with its
first read of the query region. -/
def afterSinglePoll (client : i2c_client) (w : World) (query : Nat) : World :=
  (i2c_master_read_it7260 w client QUERY_BUF [query] 1).2.2

/-- The world after the identification wrote its command in `w`. -/
def afterIdentifyCommand (client : i2c_client) (w : World) : World :=
  (i2c_master_write_it7260 w client CMD_BUF ((List.replicate 10 0).set 0 0x00) 1).2

/-! ## Session setup and the staging buffer -/

/-- The ranges `it7260_ts_probe` declares for the three axes, as (min, max):
`input_set_abs_params(input, ABS_X, 0, 600, 0, 0)`,
`input_set_abs_params(input, ABS_Y, 0, 1024, 0, 0)`,
`input_set_abs_params(input, ABS_PRESSURE, 0, 16, 0, 0)`. -/
def abs_params : AbsAxis → Int × Int
  | AbsAxis.ABS_X => (0, 600)
  | AbsAxis.ABS_Y => (0, 1024)
  | AbsAxis.ABS_PRESSURE => (0, 16)

/-- Whether a call into the event sink stays inside the declared range of its
axis; calls that carry no axis value do. -/
def inDeclaredRange : Effect → Bool
  | Effect.input_report_abs axis value =>
    decide ((abs_params axis).1 ≤ value) && decide (value ≤ (abs_params axis).2)
  | _ => true

/-- Whether a transmit message is longer than the `WRITE_BUF_SIZE` bytes of
the local buffer `i2c_master_write_it7260` copies it into and sends it from. -/
def msgOverruns (m : I2cMsg) : Bool :=
  m.flags == MsgFlag.I2C_M_WR && decide (WRITE_BUF_SIZE < m.len)

/-- Whether a call is a bus transaction with a message that overruns the
staging buffer of the write. -/
def overruns : Effect → Bool
  | Effect.i2c_transfer _ msgs => msgs.any msgOverruns
  | _ => false

/-- The calls a function appended to a log that was `before`. -/
def newCalls (before : List Effect) (after : List Effect) : List Effect :=
  after.drop before.length

/-! ## Basic facts about the world and the log -/

theorem emit_log (w : World) (e : Effect) : (w.emit e).log = w.log ++ [e] := rfl

theorem inputEvents_append (a b : List Effect) :
    inputEvents (a ++ b) = inputEvents a ++ inputEvents b := by
  simp [inputEvents]

theorem busOps_append (a b : List Effect) :
    busOps (a ++ b) = busOps a ++ busOps b := by
  simp [busOps]

theorem mutexHeld_append (a b : List Effect) :
    ∀ held, mutexHeld held (a ++ b) = mutexHeld (mutexHeld held a) b := by
  induction a with
  | nil => intro held; rfl
  | cons e es ih =>
    intro held
    cases e <;> simp [mutexHeld, ih]

theorem poscheck_out_log (priv : it7260_ts_priv) (w : World) :
    (poscheck_out priv w).log = w.log ++ [Effect.mutex_unlock, Effect.enable_irq priv.irq] := by
  simp [poscheck_out, emit_log]

theorem afterQuery_log (priv : it7260_ts_priv) (w : World) :
    (afterQuery priv w).log = w.log ++ [Effect.mutex_lock, readOp priv.client QUERY_BUF 1] := by
  simp [afterQuery]

theorem afterReport_log (priv : it7260_ts_priv) (w : World) :
    (afterReport priv w).log = w.log ++ [Effect.mutex_lock, readOp priv.client QUERY_BUF 1,
      readOp priv.client POINT_INFO_BUF 14] := by
  simp [afterReport, afterQuery]

/-- The decode cycle, branch by branch, in terms of the query byte and the
report block it reads. -/
theorem poscheck_unfold (priv : it7260_ts_priv) (w : World) :
    it7260_ts_poscheck priv w =
      if queryByte w &&& 0x80 = 0 then poscheck_out priv (afterQuery priv w)
      else if (reportBlock w).getD 0 0 = 0x41 then
        if (reportBlock w).getD 1 0 = 0x04 then
          poscheck_out priv (((afterReport priv w).emit
            (Effect.input_report_key KeyCode.KEY_HOME ((reportBlock w).getD 2 0 != 0))).emit
            Effect.input_sync)
        else if (reportBlock w).getD 1 0 = 0x03 then
          poscheck_out priv (((afterReport priv w).emit
            (Effect.input_report_key KeyCode.KEY_MENU ((reportBlock w).getD 2 0 != 0))).emit
            Effect.input_sync)
        else if (reportBlock w).getD 1 0 = 0x02 then
          poscheck_out priv (((afterReport priv w).emit
            (Effect.input_report_key KeyCode.KEY_BACK ((reportBlock w).getD 2 0 != 0))).emit
            Effect.input_sync)
        else if (reportBlock w).getD 1 0 = 0x01 then
          poscheck_out priv (((afterReport priv w).emit
            (Effect.input_report_key KeyCode.KEY_POWER ((reportBlock w).getD 2 0 != 0))).emit
            Effect.input_sync)
        else poscheck_out priv (afterReport priv w)
      else
        poscheck_out priv ((((((afterReport priv w).emit
          (Effect.input_report_key KeyCode.BTN_TOUCH ((reportBlock w).getD 5 0 != 0))).emit
          (Effect.input_report_abs AbsAxis.ABS_X (ypos (reportBlock w) : Nat))).emit
          (Effect.input_report_abs AbsAxis.ABS_Y (xpos (reportBlock w) : Nat))).emit
          (Effect.input_report_abs AbsAxis.ABS_PRESSURE ((reportBlock w).getD 5 0 : Nat))).emit
          Effect.input_sync) := rfl

/-- Every run of the decode cycle appends to the log: the lock, then bus
transactions and calls into the event sink only, then the unlock and the
re-enable of the session's interrupt line. -/
theorem poscheck_log_shape (priv : it7260_ts_priv) (w : World) :
    ∃ mid, (it7260_ts_poscheck priv w).log =
        w.log ++ (Effect.mutex_lock :: (mid ++ [Effect.mutex_unlock, Effect.enable_irq priv.irq]))
      ∧ ∀ e ∈ mid, isBusOp e = true ∨ isInputEvent e = true := by
  rw [poscheck_unfold]
  split
  · exact ⟨[readOp priv.client QUERY_BUF 1], by
      simp [poscheck_out_log, afterQuery_log, readOp, isBusOp]⟩
  · split
    · split
      · refine ⟨[readOp priv.client QUERY_BUF 1, readOp priv.client POINT_INFO_BUF 14,
          Effect.input_report_key KeyCode.KEY_HOME ((reportBlock w).getD 2 0 != 0),
          Effect.input_sync], ?_⟩
        simp [poscheck_out_log, afterReport_log, emit_log, readOp, isBusOp, isInputEvent]
      · split
        · refine ⟨[readOp priv.client QUERY_BUF 1, readOp priv.client POINT_INFO_BUF 14,
            Effect.input_report_key KeyCode.KEY_MENU ((reportBlock w).getD 2 0 != 0),
            Effect.input_sync], ?_⟩
          simp [poscheck_out_log, afterReport_log, emit_log, readOp, isBusOp, isInputEvent]
        · split
          · refine ⟨[readOp priv.client QUERY_BUF 1, readOp priv.client POINT_INFO_BUF 14,
              Effect.input_report_key KeyCode.KEY_BACK ((reportBlock w).getD 2 0 != 0),
              Effect.input_sync], ?_⟩
            simp [poscheck_out_log, afterReport_log, emit_log, readOp, isBusOp, isInputEvent]
          · split
            · refine ⟨[readOp priv.client QUERY_BUF 1, readOp priv.client POINT_INFO_BUF 14,
                Effect.input_report_key KeyCode.KEY_POWER ((reportBlock w).getD 2 0 != 0),
                Effect.input_sync], ?_⟩
              simp [poscheck_out_log, afterReport_log, emit_log, readOp, isBusOp, isInputEvent]
            · refine ⟨[readOp priv.client QUERY_BUF 1, readOp priv.client POINT_INFO_BUF 14], ?_⟩
              simp [poscheck_out_log, afterReport_log, readOp, isBusOp]
    · refine ⟨[readOp priv.client QUERY_BUF 1, readOp priv.client POINT_INFO_BUF 14,
        Effect.input_report_key KeyCode.BTN_TOUCH ((reportBlock w).getD 5 0 != 0),
        Effect.input_report_abs AbsAxis.ABS_X (ypos (reportBlock w) : Nat),
        Effect.input_report_abs AbsAxis.ABS_Y (xpos (reportBlock w) : Nat),
        Effect.input_report_abs AbsAxis.ABS_PRESSURE ((reportBlock w).getD 5 0 : Nat),
        Effect.input_sync], ?_⟩
      simp [poscheck_out_log, afterReport_log, emit_log, readOp, isBusOp, isInputEvent]

theorem poscheck_mutex_released (priv : it7260_ts_priv) (w : World) (held : Bool) :
    mutexHeld held (it7260_ts_poscheck priv w).log = false := by
  obtain ⟨mid, hlog, _⟩ := poscheck_log_shape priv w
  have h2 : (it7260_ts_poscheck priv w).log =
      (w.log ++ Effect.mutex_lock :: mid) ++ [Effect.mutex_unlock, Effect.enable_irq priv.irq] := by
    rw [hlog]; simp
  rw [h2, mutexHeld_append]
  simp [mutexHeld]

theorem poscheck_last_call (priv : it7260_ts_priv) (w : World) :
    (it7260_ts_poscheck priv w).log.getLast? = some (Effect.enable_irq priv.irq) := by
  obtain ⟨mid, hlog, _⟩ := poscheck_log_shape priv w
  have h3 : (it7260_ts_poscheck priv w).log =
      (w.log ++ Effect.mutex_lock :: (mid ++ [Effect.mutex_unlock])) ++
        [Effect.enable_irq priv.irq] := by
    rw [hlog]; simp
  rw [h3, List.getLast?_append]
  rfl

/-! ## The decode cycle -/

/-- C1: a key report (tag 0x41) whose key index is 0x01..0x04, read after a
query byte with bit 7 set, makes the decode cycle emit exactly the key event
of the selected key (0x01 power, 0x02 back, 0x03 menu, 0x04 home) with
pressed = (report[2] != 0), followed by the synchronization marker, and no
axis event. -/
theorem C1_key_report_emits_selected_key (priv : it7260_ts_priv) (w : World)
    (hq : queryByte w &&& 0x80 ≠ 0)
    (htag : (reportBlock w).getD 0 0 = 0x41)
    (hsel : (reportBlock w).getD 1 0 ∈ [0x01, 0x02, 0x03, 0x04]) :
    ∃ k, keyOf ((reportBlock w).getD 1 0) = some k ∧
      inputEvents (it7260_ts_poscheck priv w).log = inputEvents w.log ++
        [Effect.input_report_key k ((reportBlock w).getD 2 0 != 0), Effect.input_sync] := by
  rw [poscheck_unfold, if_neg hq, if_pos htag]
  simp only [List.mem_cons, List.mem_singleton, List.not_mem_nil, or_false] at hsel
  rcases hsel with h | h | h | h <;> rw [h] <;>
  simp [keyOf, poscheck_out_log, afterReport_log, emit_log, inputEvents, isInputEvent, readOp]

/-- The scenario of C1: report [0x41, 0x01, 0x01, ...] gives key power,
pressed. -/
theorem C1_key_report_witness :
    (queryByte keyPowerWorld &&& 0x80 ≠ 0
      ∧ (reportBlock keyPowerWorld).getD 0 0 = 0x41
      ∧ (reportBlock keyPowerWorld).getD 1 0 ∈ [0x01, 0x02, 0x03, 0x04])
    ∧ ∃ k, keyOf ((reportBlock keyPowerWorld).getD 1 0) = some k ∧
      inputEvents (it7260_ts_poscheck wakePriv keyPowerWorld).log =
        inputEvents keyPowerWorld.log ++
          [Effect.input_report_key k ((reportBlock keyPowerWorld).getD 2 0 != 0),
           Effect.input_sync] :=
  ⟨⟨by decide, by decide, by decide⟩,
   C1_key_report_emits_selected_key wakePriv keyPowerWorld (by decide) (by decide) (by decide)⟩

/-- C2: a report whose tag is not 0x41, read after a query byte with bit 7
set, makes the decode cycle emit one touch event: contact state
(report[5] != 0), two axis values, pressure equal to report[5], and the
synchronization marker. -/
theorem C2_touch_report_pressure_and_contact (priv : it7260_ts_priv) (w : World)
    (hq : queryByte w &&& 0x80 ≠ 0)
    (htag : (reportBlock w).getD 0 0 ≠ 0x41) :
    ∃ x y : Int,
      inputEvents (it7260_ts_poscheck priv w).log = inputEvents w.log ++
        [Effect.input_report_key KeyCode.BTN_TOUCH ((reportBlock w).getD 5 0 != 0),
         Effect.input_report_abs AbsAxis.ABS_X x,
         Effect.input_report_abs AbsAxis.ABS_Y y,
         Effect.input_report_abs AbsAxis.ABS_PRESSURE ((reportBlock w).getD 5 0 : Nat),
         Effect.input_sync] := by
  rw [poscheck_unfold, if_neg hq, if_neg htag]
  refine ⟨(ypos (reportBlock w) : Nat), (xpos (reportBlock w) : Nat), ?_⟩
  simp [poscheck_out_log, afterReport_log, emit_log, inputEvents, isInputEvent, readOp]

/-- A coordinate report with pressure 7 read after query byte 0x80. -/
theorem C2_touch_report_witness :
    (queryByte touchWorld &&& 0x80 ≠ 0 ∧ (reportBlock touchWorld).getD 0 0 ≠ 0x41)
    ∧ ∃ x y : Int,
      inputEvents (it7260_ts_poscheck wakePriv touchWorld).log = inputEvents touchWorld.log ++
        [Effect.input_report_key KeyCode.BTN_TOUCH ((reportBlock touchWorld).getD 5 0 != 0),
         Effect.input_report_abs AbsAxis.ABS_X x,
         Effect.input_report_abs AbsAxis.ABS_Y y,
         Effect.input_report_abs AbsAxis.ABS_PRESSURE ((reportBlock touchWorld).getD 5 0 : Nat),
         Effect.input_sync] :=
  ⟨⟨by decide, by decide⟩,
   C2_touch_report_pressure_and_contact wakePriv touchWorld (by decide) (by decide)⟩

/-- C4: when the query byte has bit 7 clear, the decode cycle's only bus
transaction is the 1-byte read of the query region 0x80 (no read of the point
information region) and nothing is handed to the event sink. -/
theorem C4_no_data_no_report_read (priv : it7260_ts_priv) (w : World)
    (hq : queryByte w &&& 0x80 = 0) :
    busOps (it7260_ts_poscheck priv w).log = busOps w.log ++ [readOp priv.client QUERY_BUF 1]
    ∧ inputEvents (it7260_ts_poscheck priv w).log = inputEvents w.log := by
  rw [poscheck_unfold, if_pos hq, poscheck_out_log, afterQuery_log]
  simp [busOps, inputEvents, isBusOp, isInputEvent, readOp]

/-- The decode cycle on query byte 0x00. -/
theorem C4_no_data_witness :
    queryByte idleWorld &&& 0x80 = 0
    ∧ (busOps (it7260_ts_poscheck wakePriv idleWorld).log =
        busOps idleWorld.log ++ [readOp wakePriv.client QUERY_BUF 1]
      ∧ inputEvents (it7260_ts_poscheck wakePriv idleWorld).log = inputEvents idleWorld.log) :=
  ⟨by decide, C4_no_data_no_report_read wakePriv idleWorld (by decide)⟩

/-- C5: whatever the bus does, one run of the decode cycle ends with the
session mutex released and with exactly one `enable_irq` of the session's
interrupt line, its last call; between the lock and the unlock it only talks
to the bus and the event sink. -/
theorem C5_cycle_releases_mutex_and_reenables_irq (priv : it7260_ts_priv) (w : World)
    (held : Bool) :
    mutexHeld held (it7260_ts_poscheck priv w).log = false
    ∧ ((it7260_ts_poscheck priv w).log.drop w.log.length).count (Effect.enable_irq priv.irq) = 1
    ∧ (it7260_ts_poscheck priv w).log.getLast? = some (Effect.enable_irq priv.irq)
    ∧ ∃ mid, (it7260_ts_poscheck priv w).log =
        w.log ++ (Effect.mutex_lock :: (mid ++ [Effect.mutex_unlock, Effect.enable_irq priv.irq]))
      ∧ ∀ e ∈ mid, isBusOp e = true ∨ isInputEvent e = true := by
  obtain ⟨mid, hlog, hmid⟩ := poscheck_log_shape priv w
  have hcount : mid.count (Effect.enable_irq priv.irq) = 0 := by
    rw [List.count_eq_zero]
    intro hmem
    rcases hmid _ hmem with h | h <;> simp [isBusOp, isInputEvent] at h
  refine ⟨poscheck_mutex_released priv w held, ?_, poscheck_last_call priv w, mid, hlog, hmid⟩
  rw [hlog, List.drop_left]
  simp [List.count_cons, List.count_append, hcount]

/-- C9: a key report (tag 0x41) whose key index is none of 0x01..0x04, read
after a query byte with bit 7 set, hands nothing to the event sink: no key
event, no axis event, no synchronization marker. -/
theorem C9_unknown_key_emits_nothing (priv : it7260_ts_priv) (w : World)
    (hq : queryByte w &&& 0x80 ≠ 0)
    (htag : (reportBlock w).getD 0 0 = 0x41)
    (hsel : (reportBlock w).getD 1 0 ∉ [0x01, 0x02, 0x03, 0x04]) :
    inputEvents (it7260_ts_poscheck priv w).log = inputEvents w.log := by
  simp only [List.mem_cons, List.mem_singleton, List.not_mem_nil, or_false, not_or] at hsel
  obtain ⟨h1, h2, h3, h4⟩ := hsel
  rw [poscheck_unfold, if_neg hq, if_pos htag, if_neg h4, if_neg h3, if_neg h2, if_neg h1,
    poscheck_out_log, afterReport_log]
  simp [inputEvents, isInputEvent, readOp]

/-- A key report with key index 0x05 read after query byte 0x80. -/
theorem C9_unknown_key_witness :
    (queryByte keyUnknownWorld &&& 0x80 ≠ 0
      ∧ (reportBlock keyUnknownWorld).getD 0 0 = 0x41
      ∧ (reportBlock keyUnknownWorld).getD 1 0 ∉ [0x01, 0x02, 0x03, 0x04])
    ∧ inputEvents (it7260_ts_poscheck wakePriv keyUnknownWorld).log =
        inputEvents keyUnknownWorld.log :=
  ⟨⟨by decide, by decide, by decide⟩,
   C9_unknown_key_emits_nothing wakePriv keyUnknownWorld (by decide) (by decide) (by decide)⟩


/-! ## Coordinates -/

theorem shift_join (c : Nat) : ((c >>> 8) <<< 8) ||| (c &&& 0xFF) = c := by
  have h1 : c &&& 0xFF = c % 2 ^ 8 := Nat.and_pow_two_sub_one_eq_mod c 8
  have h2 : (c >>> 8) <<< 8 = 2 ^ 8 * (c / 2 ^ 8) := by
    rw [Nat.shiftLeft_eq, Nat.shiftRight_eq_div_pow, Nat.mul_comm]
  rw [h1, h2, ← Nat.mul_add_lt_is_or (Nat.mod_lt _ (by decide)) (c / 2 ^ 8)]
  exact Nat.div_add_mod c (2 ^ 8)

theorem nibble_split : ∀ a < 16, ∀ b < 16,
    ((a ||| (b <<< 4)) &&& 0x0F) = a ∧ (((a ||| (b <<< 4)) &&& 0xF0) <<< 4) = b <<< 8 := by
  decide

theorem high_nibble_lt (c : Nat) (h : c < 4096) : c >>> 8 < 16 := by
  rw [Nat.shiftRight_eq_div_pow]; omega

/-- C3: for all 12-bit cx and cy, the report built by the packed layout is
decoded by the coordinate reconstruction of the decode cycle back to
(cx, cy): xpos gives cx and ypos gives cy, whatever the other bytes are. -/
theorem C3_coordinate_round_trip (tag b1 pressure : Nat) (rest : List Nat) (cx cy : Nat)
    (hx : cx < 4096) (hy : cy < 4096) :
    xpos (packReport tag b1 pressure rest cx cy) = cx
    ∧ ypos (packReport tag b1 pressure rest cx cy) = cy := by
  obtain ⟨hlo, hhi⟩ := nibble_split (cx >>> 8) (high_nibble_lt cx hx) (cy >>> 8)
    (high_nibble_lt cy hy)
  have gx : xpos (packReport tag b1 pressure rest cx cy) =
      (((((cx >>> 8) ||| ((cy >>> 8) <<< 4)) &&& 0x0F) <<< 8) ||| (cx &&& 0xFF)) % 65536 := rfl
  have gy : ypos (packReport tag b1 pressure rest cx cy) =
      (((((cx >>> 8) ||| ((cy >>> 8) <<< 4)) &&& 0xF0) <<< 4) ||| (cy &&& 0xFF)) % 65536 := rfl
  rw [gx, gy, hlo, hhi, shift_join, shift_join]
  exact ⟨Nat.mod_eq_of_lt (by omega), Nat.mod_eq_of_lt (by omega)⟩

/-- The pair (0x310, 0x245) survives packing and decoding. -/
theorem C3_coordinate_round_trip_witness :
    ((0x310 : Nat) < 4096 ∧ (0x245 : Nat) < 4096)
    ∧ (xpos (packReport 0 0 7 [0, 0, 0, 0, 0, 0, 0, 0] 0x310 0x245) = 0x310
      ∧ ypos (packReport 0 0 7 [0, 0, 0, 0, 0, 0, 0, 0] 0x310 0x245) = 0x245) :=
  ⟨⟨by decide, by decide⟩,
   C3_coordinate_round_trip 0 0 7 [0, 0, 0, 0, 0, 0, 0, 0] 0x310 0x245 (by decide) (by decide)⟩


/-! ## Controller handshake -/

theorem storeBytes_exact : ∀ (buf data : List Nat), buf.length = data.length →
    (∀ b ∈ data, b < 256) → storeBytes buf data data.length = data := by
  intro buf
  induction buf with
  | nil =>
    intro data hlen _
    cases data with
    | nil => rfl
    | cons d ds => simp at hlen
  | cons b bs ih =>
    intro data hlen hb
    cases data with
    | nil => simp at hlen
    | cons d ds =>
      have hd : d < 256 := hb d (List.mem_cons_self d ds)
      have hrest : storeBytes bs ds ds.length = ds :=
        ih ds (by simpa using hlen) (fun x hx => hb x (List.mem_cons_of_mem d hx))
      show (d % 256) :: storeBytes bs ds ds.length = d :: ds
      rw [hrest, Nat.mod_eq_of_lt hd]

/-- A report read that delivers 14 bytes fills the report buffer with them. -/
theorem reportBlock_delivered (w : World) (report : List Nat)
    (hdata : (w.bus (w.n + 1)).data = report) (hlen : report.length = 14)
    (hbyte : ∀ b ∈ report, b < 256) : reportBlock w = report := by
  unfold reportBlock
  rw [hdata, ← hlen]
  exact storeBytes_exact _ _ (by simp [hlen]) hbyte

/-- A query read that delivers a byte sets the query variable to it. -/
theorem queryByte_delivered (w : World) (q : Nat) (rest : List Nat)
    (hdata : (w.bus w.n).data = q :: rest) : queryByte w = q % 256 := by
  unfold queryByte
  rw [hdata]
  rfl

/-- A query read that stores nothing leaves the query variable at 0. -/
theorem queryByte_untouched (w : World) (hdata : (w.bus w.n).data = []) : queryByte w = 0 := by
  unfold queryByte
  rw [hdata]
  rfl

/-- A busy poll that sees `k` busy answers and then a ready one ends after
`k + 1` reads of the query region, if it has fuel for them. -/
theorem query_poll_run (client : i2c_client) : ∀ (k fuel : Nat) (w : World) (q : Nat),
    k < fuel → (∀ i, i < k → answersBusy (w.bus (w.n + i)) = true) →
    answersReady (w.bus (w.n + k)) = true →
    ∃ q2 w2, query_poll client fuel w q = some (q2, w2)
      ∧ w2.bus = w.bus ∧ w2.n = w.n + k + 1
      ∧ w2.log = w.log ++ List.replicate (k + 1) (readOp client QUERY_BUF 1) := by
  intro k
  induction k with
  | zero =>
    intro fuel w q hf _ hr
    obtain ⟨f, rfl⟩ : ∃ f, fuel = f + 1 := ⟨fuel - 1, by omega⟩
    have hr0 : answersReady (w.bus w.n) = true := hr
    unfold answersReady at hr0
    cases hd : (w.bus w.n).data with
    | nil => rw [hd] at hr0; simp at hr0
    | cons b rest =>
      rw [hd] at hr0
      have hb : (b % 256) &&& 0x01 = 0 := by simpa using hr0
      have hbuf : (i2c_master_read_it7260 w client QUERY_BUF [q] 1).2.1 = [b % 256] := by
        show storeBytes [q] (w.bus w.n).data 1 = [b % 256]
        rw [hd]; rfl
      refine ⟨b % 256, (i2c_master_read_it7260 w client QUERY_BUF [q] 1).2.2, ?_, rfl, rfl, rfl⟩
      unfold query_poll
      simp only [hbuf, List.getD_cons_zero, hb, if_true]
  | succ k ih =>
    intro fuel w q hf hbusy hr
    obtain ⟨f, rfl⟩ : ∃ f, fuel = f + 1 := ⟨fuel - 1, by omega⟩
    have hb0 : answersBusy (w.bus w.n) = true := hbusy 0 (Nat.succ_pos k)
    unfold answersBusy at hb0
    cases hd : (w.bus w.n).data with
    | nil => rw [hd] at hb0; simp at hb0
    | cons b rest =>
      rw [hd] at hb0
      have hb : ¬ ((b % 256) &&& 0x01 = 0) := by simpa using hb0
      have hbuf : (i2c_master_read_it7260 w client QUERY_BUF [q] 1).2.1 = [b % 256] := by
        show storeBytes [q] (w.bus w.n).data 1 = [b % 256]
        rw [hd]; rfl
      have hw : (i2c_master_read_it7260 w client QUERY_BUF [q] 1).2.2 =
          ⟨w.bus, w.n + 1, w.log ++ [readOp client QUERY_BUF 1]⟩ := rfl
      obtain ⟨q2, w2, h2, hbus, hn, hlog⟩ :=
        ih f ⟨w.bus, w.n + 1, w.log ++ [readOp client QUERY_BUF 1]⟩ (b % 256)
        (by omega)
        (fun i hi => by
          have := hbusy (i + 1) (by omega)
          simpa [Nat.add_assoc, Nat.add_comm 1 i] using this)
        (by simpa [Nat.add_assoc, Nat.add_comm 1 k] using hr)
      refine ⟨q2, w2, ?_, hbus, ?_, ?_⟩
      · unfold query_poll
        simp only [hbuf, List.getD_cons_zero, hb, if_false, hw]
        exact h2
      · rw [hn]; show w.n + 1 + k + 1 = w.n + (k + 1) + 1; omega
      · rw [hlog]
        simp [List.replicate_succ]

theorem signature_result (A B C : Prop) [Decidable A] [Decidable B] [Decidable C] :
    ((if ¬ A ∨ ¬ B ∨ ¬ C then (-1 : Int) else 0) = 0 ↔ (A ∧ B ∧ C))
    ∧ (¬ (A ∧ B ∧ C) → (if ¬ A ∨ ¬ B ∨ ¬ C then (-1 : Int) else 0) = -1) := by
  by_cases hA : A <;> by_cases hB : B <;> by_cases hC : C <;> simp [hA, hB, hC]

/-- The identification once both of its busy polls have ended. -/
theorem identify_of_polls (client : i2c_client) (fuel : Nat) (w w1 w3 : World) (q1 q2 : Nat)
    (h1 : query_poll client fuel w 0 = some (q1, w1))
    (h2 : query_poll client fuel
      (i2c_master_write_it7260 w1 client CMD_BUF ((List.replicate 10 0).set 0 0x00) 1).2 q1 =
        some (q2, w3)) :
    it7260_identify_capsensor fuel client w =
      some (if (storeBytes (List.replicate 10 0) (w3.bus w3.n).data 10).getD 1 0 ≠ 'I'.toNat
              ∨ (storeBytes (List.replicate 10 0) (w3.bus w3.n).data 10).getD 2 0 ≠ 'T'.toNat
              ∨ (storeBytes (List.replicate 10 0) (w3.bus w3.n).data 10).getD 3 0 ≠ 'E'.toNat
            then -1 else 0,
        ⟨w3.bus, w3.n + 1, w3.log ++ [readOp client CMD_RSP_BUF 10]⟩) := by
  unfold it7260_identify_capsensor
  rw [h1]
  simp only
  rw [h2]
  simp only
  split
  · next h =>
    have h4 : (storeBytes (List.replicate 10 0) (w3.bus w3.n).data 10).getD 1 0 ≠ 'I'.toNat
        ∨ (storeBytes (List.replicate 10 0) (w3.bus w3.n).data 10).getD 2 0 ≠ 'T'.toNat
        ∨ (storeBytes (List.replicate 10 0) (w3.bus w3.n).data 10).getD 3 0 ≠ 'E'.toNat := h
    rw [if_pos h4]; rfl
  · next h =>
    have h4 : ¬ ((storeBytes (List.replicate 10 0) (w3.bus w3.n).data 10).getD 1 0 ≠ 'I'.toNat
        ∨ (storeBytes (List.replicate 10 0) (w3.bus w3.n).data 10).getD 2 0 ≠ 'T'.toNat
        ∨ (storeBytes (List.replicate 10 0) (w3.bus w3.n).data 10).getD 3 0 ≠ 'E'.toNat) := h
    rw [if_neg h4]; rfl

/-- C6: when both busy polls end (k1 and k2 busy answers, each followed by a
ready one) and the command-response read delivers the 10-byte block r, the
identification returns, with 0 if and only if r[1] = I, r[2] = T and
r[3] = E, and with -1 for every other r. -/
theorem C6_identify_checks_signature (client : i2c_client) (w : World) (fuel k1 k2 : Nat)
    (r : List Nat)
    (hf1 : k1 < fuel) (hf2 : k2 < fuel)
    (hbusy1 : ∀ i, i < k1 → answersBusy (w.bus (w.n + i)) = true)
    (hready1 : answersReady (w.bus (w.n + k1)) = true)
    (hbusy2 : ∀ i, i < k2 → answersBusy (w.bus (w.n + k1 + 2 + i)) = true)
    (hready2 : answersReady (w.bus (w.n + k1 + 2 + k2)) = true)
    (hdata : (w.bus (w.n + k1 + 2 + k2 + 1)).data = r)
    (hlen : r.length = 10) (hbyte : ∀ b ∈ r, b < 256) :
    ∃ ret w2, it7260_identify_capsensor fuel client w = some (ret, w2)
      ∧ (ret = 0 ↔ (r.getD 1 0 = 'I'.toNat ∧ r.getD 2 0 = 'T'.toNat ∧ r.getD 3 0 = 'E'.toNat))
      ∧ (¬ (r.getD 1 0 = 'I'.toNat ∧ r.getD 2 0 = 'T'.toNat ∧ r.getD 3 0 = 'E'.toNat) →
          ret = -1) := by
  obtain ⟨q1, w1, h1, hb1, hn1, _⟩ := query_poll_run client k1 fuel w 0 hf1 hbusy1 hready1
  have hwb : (i2c_master_write_it7260 w1 client CMD_BUF ((List.replicate 10 0).set 0 0x00) 1).2.bus
      = w.bus := hb1
  have hwn : (i2c_master_write_it7260 w1 client CMD_BUF ((List.replicate 10 0).set 0 0x00) 1).2.n
      = w.n + k1 + 2 := by
    show w1.n + 1 = w.n + k1 + 2
    rw [hn1]
  obtain ⟨q2, w3, h2, hb3, hn3, _⟩ := query_poll_run client k2 fuel
    (i2c_master_write_it7260 w1 client CMD_BUF ((List.replicate 10 0).set 0 0x00) 1).2 q1 hf2
    (fun i hi => by rw [hwb, hwn]; exact hbusy2 i hi)
    (by rw [hwb, hwn]; exact hready2)
  have hblock : storeBytes (List.replicate 10 0) (w3.bus w3.n).data 10 = r := by
    rw [hb3, hn3, hwb, hwn, hdata, ← hlen]
    exact storeBytes_exact _ _ (by simp [hlen]) hbyte
  refine ⟨_, _, identify_of_polls client fuel w w1 w3 q1 q2 h1 h2, ?_⟩
  rw [hblock]
  exact signature_result _ _ _

/-- One busy poll before the command, none after it, and the response of an
ITE controller. -/
theorem C6_identify_witness :
    ((1 < 3 ∧ 0 < 3)
      ∧ (∀ i, i < 1 → answersBusy (identifyWorld.bus (identifyWorld.n + i)) = true)
      ∧ answersReady (identifyWorld.bus (identifyWorld.n + 1)) = true
      ∧ (∀ i, i < 0 → answersBusy (identifyWorld.bus (identifyWorld.n + 1 + 2 + i)) = true)
      ∧ answersReady (identifyWorld.bus (identifyWorld.n + 1 + 2 + 0)) = true
      ∧ (identifyWorld.bus (identifyWorld.n + 1 + 2 + 0 + 1)).data =
          [0x0A, 0x49, 0x54, 0x45, 0x37, 0x32, 0x36, 0x30, 0, 0]
      ∧ [0x0A, 0x49, 0x54, 0x45, 0x37, 0x32, 0x36, 0x30, 0, 0].length = 10
      ∧ ∀ b ∈ [0x0A, 0x49, 0x54, 0x45, 0x37, 0x32, 0x36, 0x30, 0, 0], b < 256)
    ∧ ∃ ret w2, it7260_identify_capsensor 3 wakeClient identifyWorld = some (ret, w2)
      ∧ (ret = 0 ↔ ([0x0A, 0x49, 0x54, 0x45, 0x37, 0x32, 0x36, 0x30, 0, 0].getD 1 0 = 'I'.toNat
          ∧ [0x0A, 0x49, 0x54, 0x45, 0x37, 0x32, 0x36, 0x30, 0, 0].getD 2 0 = 'T'.toNat
          ∧ [0x0A, 0x49, 0x54, 0x45, 0x37, 0x32, 0x36, 0x30, 0, 0].getD 3 0 = 'E'.toNat))
      ∧ (¬ ([0x0A, 0x49, 0x54, 0x45, 0x37, 0x32, 0x36, 0x30, 0, 0].getD 1 0 = 'I'.toNat
          ∧ [0x0A, 0x49, 0x54, 0x45, 0x37, 0x32, 0x36, 0x30, 0, 0].getD 2 0 = 'T'.toNat
          ∧ [0x0A, 0x49, 0x54, 0x45, 0x37, 0x32, 0x36, 0x30, 0, 0].getD 3 0 = 'E'.toNat) →
          ret = -1) :=
  ⟨⟨⟨by decide, by decide⟩, by decide, by decide, by decide, by decide, by decide, by decide,
      by decide⟩,
   C6_identify_checks_signature wakeClient identifyWorld 3 1 0
     [0x0A, 0x49, 0x54, 0x45, 0x37, 0x32, 0x36, 0x30, 0, 0]
     (by decide) (by decide) (by decide) (by decide) (by decide) (by decide) (by decide)
     (by decide) (by decide)⟩

/-! ## Power entry points -/

/-- The write reports 2, the size of its staging buffer, when the adapter
accepts its message, and the adapter's own result otherwise. -/
theorem write_result (w : World) (client : i2c_client) (buf_index : Nat) (buf_data : List Nat)
    (len_data : Nat) :
    (i2c_master_write_it7260 w client buf_index buf_data len_data).1 =
      if (w.bus w.n).ret = 1 then 2 else (w.bus w.n).ret := rfl

/-- The suspend entry point returns 0 only if the session is wake-capable and
the adapter answers the single-message transfer with 3. -/
theorem suspend_returns_zero_iff (priv : it7260_ts_priv) (client : i2c_client) (w : World) :
    (it7260_ts_suspend priv client w).1 = 0 ↔
      (client.may_wakeup = true ∧ (w.bus w.n).ret = 3) := by
  unfold it7260_ts_suspend
  cases hm : client.may_wakeup with
  | false => simp
  | true =>
    simp only [if_true, write_result]
    show (if ((3 : Nat) : Int) = (if (w.bus w.n).ret = 1 then 2 else (w.bus w.n).ret)
      then ((0 : Int), _) else (-1, _)).1 = 0 ↔ _
    by_cases h1 : (w.bus w.n).ret = 1
    · rw [if_pos h1]
      have : ¬ (((3 : Nat) : Int) = 2) := by decide
      rw [if_neg this]
      simp [h1]
    · rw [if_neg h1]
      by_cases h3 : ((3 : Nat) : Int) = (w.bus w.n).ret
      · rw [if_pos h3]
        simp [← h3]
      · rw [if_neg h3]
        have : ¬ ((w.bus w.n).ret = 3) := fun h => h3 (by rw [h]; rfl)
        simp [this]

/-- C7 (evaluation): on a wake-capable session whose adapter accepts the
suspend command (the transfer reports its 1 message completed), the suspend
entry point arms the wake source and sends 0x04, 0x00, 0x02 to the command
region, but returns -1: the write reports the size of its 2-byte staging
buffer, which never equals the 3 bytes suspend compares it with. -/
theorem C7_suspend_fails_on_accepted_write :
    wakeClient.may_wakeup = true
    ∧ (writeAcceptedWorld.bus writeAcceptedWorld.n).ret = 1
    ∧ (i2c_master_write_it7260 writeAcceptedWorld wakeClient CMD_BUF [0x04, 0x00, 0x02] 3).1 = 2
    ∧ (it7260_ts_suspend wakePriv wakeClient writeAcceptedWorld).1 = -1
    ∧ (it7260_ts_suspend wakePriv wakeClient writeAcceptedWorld).2.log =
        [Effect.enable_irq_wake 7, writeOp wakeClient CMD_BUF [0x04, 0x00, 0x02]] := by
  decide

/-- C8: on a session that is not wake-capable the suspend entry point returns
the non-zero failure -1 and leaves the world untouched: no bus transaction,
no wake-source arming, no other call. -/
theorem C8_suspend_without_wakeup_fails (priv : it7260_ts_priv) (client : i2c_client)
    (w : World) (h : client.may_wakeup = false) :
    (it7260_ts_suspend priv client w).1 = -1
    ∧ (it7260_ts_suspend priv client w).1 ≠ 0
    ∧ (it7260_ts_suspend priv client w).2.log = w.log
    ∧ (it7260_ts_suspend priv client w).2.n = w.n := by
  have hs : it7260_ts_suspend priv client w = (-1, w) := by
    unfold it7260_ts_suspend
    simp [h]
  rw [hs]
  have hne : (-1 : Int) ≠ 0 := by decide
  exact ⟨rfl, hne, rfl, rfl⟩

/-- Suspend of a session that is not wake-capable, in a fresh world. -/
theorem C8_suspend_without_wakeup_witness :
    plainClient.may_wakeup = false
    ∧ ((it7260_ts_suspend plainPriv plainClient writeAcceptedWorld).1 = -1
      ∧ (it7260_ts_suspend plainPriv plainClient writeAcceptedWorld).1 ≠ 0
      ∧ (it7260_ts_suspend plainPriv plainClient writeAcceptedWorld).2.log = writeAcceptedWorld.log
      ∧ (it7260_ts_suspend plainPriv plainClient writeAcceptedWorld).2.n = writeAcceptedWorld.n) :=
  ⟨by decide, C8_suspend_without_wakeup_fails plainPriv plainClient writeAcceptedWorld (by decide)⟩

/-! ## Bus failures in the decode cycle -/

/-- C10 as stated fails: the query read delivers 0x80, the report read fails
with -5 and stores nothing, and the decode cycle still hands a touch event
and a synchronization marker to the event sink. -/
theorem C10_failed_report_read_emits_release :
    queryByte reportFailWorld &&& 0x80 ≠ 0
    ∧ (reportFailWorld.bus (reportFailWorld.n + 1)).ret ≠ 2
    ∧ (i2c_master_read_it7260 (afterQuery wakePriv reportFailWorld) wakeClient POINT_INFO_BUF
        (List.replicate 14 0) 14).1 = -5
    ∧ inputEvents (it7260_ts_poscheck wakePriv reportFailWorld).log = releaseEvents
    ∧ inputEvents (it7260_ts_poscheck wakePriv reportFailWorld).log ≠
        inputEvents reportFailWorld.log := by
  decide

/-- C10 (amended): when the query read fails and stores nothing, the decode
cycle hands nothing to the event sink; when the report read, after a query
byte with bit 7 set, fails and stores nothing, the cycle decodes the zeroed
buffer and hands the release event (contact up, both axes 0, pressure 0,
synchronization marker) to the sink. In both cases the cycle completes with
the mutex released and the interrupt line re-enabled as its last call. -/
theorem C10_failed_read_outcome (priv : it7260_ts_priv) (w : World) (held : Bool)
    (hfail : ((w.bus w.n).ret ≠ 2 ∧ (w.bus w.n).data = [])
      ∨ (queryByte w &&& 0x80 ≠ 0 ∧ (w.bus (w.n + 1)).ret ≠ 2 ∧ (w.bus (w.n + 1)).data = [])) :
    inputEvents (it7260_ts_poscheck priv w).log =
        inputEvents w.log ++ (if queryByte w &&& 0x80 = 0 then [] else releaseEvents)
    ∧ mutexHeld held (it7260_ts_poscheck priv w).log = false
    ∧ (it7260_ts_poscheck priv w).log.getLast? = some (Effect.enable_irq priv.irq) := by
  refine ⟨?_, poscheck_mutex_released priv w held, poscheck_last_call priv w⟩
  rcases hfail with ⟨_, hd⟩ | ⟨hq, _, hd⟩
  · have hq0 : queryByte w &&& 0x80 = 0 := by
      unfold queryByte
      rw [hd]
      rfl
    rw [if_pos hq0, poscheck_unfold, if_pos hq0, poscheck_out_log, afterQuery_log]
    simp [inputEvents, isInputEvent, readOp]
  · have hblock : reportBlock w = List.replicate 14 0 := by
      unfold reportBlock
      rw [hd]
      rfl
    have htag : ¬ ((reportBlock w).getD 0 0 = 0x41) := by
      rw [hblock]; decide
    have hx : xpos (reportBlock w) = 0 := by rw [hblock]; rfl
    have hy : ypos (reportBlock w) = 0 := by rw [hblock]; rfl
    have hp : (reportBlock w).getD 5 0 = 0 := by rw [hblock]; rfl
    rw [if_neg hq, poscheck_unfold, if_neg hq, if_neg htag, hx, hy, hp]
    simp [poscheck_out_log, afterReport_log, emit_log, inputEvents, isInputEvent, readOp,
      releaseEvents]

/-- Both failures: the query read fails in `queryFailWorld`, the report read
fails in `reportFailWorld`. -/
theorem C10_failed_read_witness :
    (((queryFailWorld.bus queryFailWorld.n).ret ≠ 2 ∧ (queryFailWorld.bus queryFailWorld.n).data = [])
      ∧ (inputEvents (it7260_ts_poscheck wakePriv queryFailWorld).log =
          inputEvents queryFailWorld.log ++
            (if queryByte queryFailWorld &&& 0x80 = 0 then [] else releaseEvents)
        ∧ mutexHeld false (it7260_ts_poscheck wakePriv queryFailWorld).log = false
        ∧ (it7260_ts_poscheck wakePriv queryFailWorld).log.getLast? =
            some (Effect.enable_irq wakePriv.irq)))
    ∧ ((queryByte reportFailWorld &&& 0x80 ≠ 0
        ∧ (reportFailWorld.bus (reportFailWorld.n + 1)).ret ≠ 2
        ∧ (reportFailWorld.bus (reportFailWorld.n + 1)).data = [])
      ∧ (inputEvents (it7260_ts_poscheck wakePriv reportFailWorld).log =
          inputEvents reportFailWorld.log ++
            (if queryByte reportFailWorld &&& 0x80 = 0 then [] else releaseEvents)
        ∧ mutexHeld false (it7260_ts_poscheck wakePriv reportFailWorld).log = false
        ∧ (it7260_ts_poscheck wakePriv reportFailWorld).log.getLast? =
            some (Effect.enable_irq wakePriv.irq))) :=
  ⟨⟨⟨by decide, by decide⟩,
      C10_failed_read_outcome wakePriv queryFailWorld false (Or.inl ⟨by decide, by decide⟩)⟩,
   ⟨⟨by decide, by decide, by decide⟩,
      C10_failed_read_outcome wakePriv reportFailWorld false
        (Or.inr ⟨by decide, by decide, by decide⟩)⟩⟩

/-! ## The identification on the bus -/

/-- The identification when both busy polls end: it returns, its result is
decided by the response buffer, and its bus trace is the first poll, the
command, the second poll and the response read. -/
theorem identify_run (client : i2c_client) (w : World) (fuel k1 k2 : Nat)
    (hf1 : k1 < fuel) (hf2 : k2 < fuel)
    (hbusy1 : ∀ i, i < k1 → answersBusy (w.bus (w.n + i)) = true)
    (hready1 : answersReady (w.bus (w.n + k1)) = true)
    (hbusy2 : ∀ i, i < k2 → answersBusy (w.bus (w.n + k1 + 2 + i)) = true)
    (hready2 : answersReady (w.bus (w.n + k1 + 2 + k2)) = true) :
    ∃ w2, it7260_identify_capsensor fuel client w =
        some (if (storeBytes (List.replicate 10 0)
                    (w.bus (w.n + k1 + 2 + k2 + 1)).data 10).getD 1 0 ≠ 'I'.toNat
                ∨ (storeBytes (List.replicate 10 0)
                    (w.bus (w.n + k1 + 2 + k2 + 1)).data 10).getD 2 0 ≠ 'T'.toNat
                ∨ (storeBytes (List.replicate 10 0)
                    (w.bus (w.n + k1 + 2 + k2 + 1)).data 10).getD 3 0 ≠ 'E'.toNat
              then -1 else 0, w2)
      ∧ w2.log = w.log ++ List.replicate (k1 + 1) (readOp client QUERY_BUF 1)
          ++ [writeOp client CMD_BUF [0x00]]
          ++ List.replicate (k2 + 1) (readOp client QUERY_BUF 1)
          ++ [readOp client CMD_RSP_BUF 10] := by
  obtain ⟨q1, w1, h1, hb1, hn1, hl1⟩ := query_poll_run client k1 fuel w 0 hf1 hbusy1 hready1
  have hwb : (i2c_master_write_it7260 w1 client CMD_BUF ((List.replicate 10 0).set 0 0x00) 1).2.bus
      = w.bus := hb1
  have hwn : (i2c_master_write_it7260 w1 client CMD_BUF ((List.replicate 10 0).set 0 0x00) 1).2.n
      = w.n + k1 + 2 := by
    show w1.n + 1 = w.n + k1 + 2
    rw [hn1]
  have hwl : (i2c_master_write_it7260 w1 client CMD_BUF ((List.replicate 10 0).set 0 0x00) 1).2.log
      = w1.log ++ [writeOp client CMD_BUF [0x00]] := rfl
  obtain ⟨q2, w3, h2, hb3, hn3, hl3⟩ := query_poll_run client k2 fuel
    (i2c_master_write_it7260 w1 client CMD_BUF ((List.replicate 10 0).set 0 0x00) 1).2 q1 hf2
    (fun i hi => by rw [hwb, hwn]; exact hbusy2 i hi)
    (by rw [hwb, hwn]; exact hready2)
  have hidx : w3.bus w3.n = w.bus (w.n + k1 + 2 + k2 + 1) := by
    rw [hb3, hn3, hwb, hwn]
  refine ⟨⟨w3.bus, w3.n + 1, w3.log ++ [readOp client CMD_RSP_BUF 10]⟩, ?_, ?_⟩
  · rw [identify_of_polls client fuel w w1 w3 q1 q2 h1 h2, hidx]
  · show w3.log ++ [readOp client CMD_RSP_BUF 10] = _
    rw [hl3, hwl, hl1]

/-- A busy poll leaves the adapter as it was. -/
theorem query_poll_bus (client : i2c_client) : ∀ (fuel : Nat) (w : World) (q q2 : Nat)
    (w2 : World), query_poll client fuel w q = some (q2, w2) → w2.bus = w.bus := by
  intro fuel
  induction fuel with
  | zero =>
    intro w q q2 w2 h
    simp [query_poll] at h
  | succ f ih =>
    intro w q q2 w2 h
    unfold query_poll at h
    simp only at h
    split at h
    · have h3 := Option.some.inj h
      have h4 : (i2c_master_read_it7260 w client QUERY_BUF [q] 1).2.2 = w2 :=
        congrArg Prod.snd h3
      rw [← h4]
      rfl
    · have h5 := ih (i2c_master_read_it7260 w client QUERY_BUF [q] 1).2.2 _ _ _ h
      rw [h5]
      rfl

/-- The same outcome with the polls described on the bus: k1 and k2 busy
answers, each followed by a ready one, then a response read that stores
nothing. -/
theorem identify_failed_response_after_answered_polls (client : i2c_client) (w : World)
    (fuel k1 k2 : Nat)
    (hf1 : k1 < fuel) (hf2 : k2 < fuel)
    (hbusy1 : ∀ i, i < k1 → answersBusy (w.bus (w.n + i)) = true)
    (hready1 : answersReady (w.bus (w.n + k1)) = true)
    (hbusy2 : ∀ i, i < k2 → answersBusy (w.bus (w.n + k1 + 2 + i)) = true)
    (hready2 : answersReady (w.bus (w.n + k1 + 2 + k2)) = true)
    (hdata : (w.bus (w.n + k1 + 2 + k2 + 1)).data = []) :
    ∃ w2, it7260_identify_capsensor fuel client w = some (-1, w2) := by
  obtain ⟨w2, h, _⟩ := identify_run client w fuel k1 k2 hf1 hf2 hbusy1 hready1 hbusy2 hready2
  refine ⟨w2, ?_⟩
  rw [h, hdata]
  have hc : (storeBytes (List.replicate 10 0) [] 10).getD 1 0 ≠ 'I'.toNat
      ∨ (storeBytes (List.replicate 10 0) [] 10).getD 2 0 ≠ 'T'.toNat
      ∨ (storeBytes (List.replicate 10 0) [] 10).getD 3 0 ≠ 'E'.toNat := by decide
  rw [if_pos hc]

/-- C11 (amended): when both busy polls of the identification end, in
whatever way (on a stored ready byte or on a read that stores nothing), and
the read of the 10-byte response fails and stores nothing, the
identification returns -1, whatever the other transfers returned; the failed
read is its last call. -/
theorem C11_failed_response_read_not_recognised (client : i2c_client) (w : World)
    (fuel q1 q2 : Nat) (w1 w3 : World)
    (hpoll1 : query_poll client fuel w 0 = some (q1, w1))
    (hpoll2 : query_poll client fuel (afterIdentifyCommand client w1) q1 = some (q2, w3))
    (hfail : (w.bus w3.n).ret ≠ 2 ∧ (w.bus w3.n).data = []) :
    ∃ w2, it7260_identify_capsensor fuel client w = some (-1, w2)
      ∧ w2.n = w3.n + 1
      ∧ w2.log = w3.log ++ [readOp client CMD_RSP_BUF 10] := by
  obtain ⟨_, hdata⟩ := hfail
  have hb1 : w1.bus = w.bus := query_poll_bus client fuel w 0 q1 w1 hpoll1
  have hb3 : w3.bus = w.bus := by
    rw [query_poll_bus client fuel (afterIdentifyCommand client w1) q1 q2 w3 hpoll2]
    exact hb1
  refine ⟨⟨w3.bus, w3.n + 1, w3.log ++ [readOp client CMD_RSP_BUF 10]⟩, ?_, rfl, rfl⟩
  rw [identify_of_polls client fuel w w1 w3 q1 q2 hpoll1 hpoll2, hb3, hdata]
  have hc : (storeBytes (List.replicate 10 0) [] 10).getD 1 0 ≠ 'I'.toNat
      ∨ (storeBytes (List.replicate 10 0) [] 10).getD 2 0 ≠ 'T'.toNat
      ∨ (storeBytes (List.replicate 10 0) [] 10).getD 3 0 ≠ 'E'.toNat := by decide
  rw [if_pos hc]

/-- Two runs: on a bus where every transfer fails and stores nothing
(`queryFailWorld`), and on a bus that answers both polls and accepts the
command before the response read fails (`identifyResponseFailWorld`). -/
theorem C11_failed_response_read_witness :
    ((query_poll wakeClient 1 queryFailWorld 0 =
          some (0, afterSinglePoll wakeClient queryFailWorld 0)
        ∧ query_poll wakeClient 1
            (afterIdentifyCommand wakeClient (afterSinglePoll wakeClient queryFailWorld 0)) 0 =
          some (0, afterSinglePoll wakeClient
            (afterIdentifyCommand wakeClient (afterSinglePoll wakeClient queryFailWorld 0)) 0)
        ∧ ((queryFailWorld.bus 3).ret ≠ 2 ∧ (queryFailWorld.bus 3).data = []))
      ∧ ∃ w2, it7260_identify_capsensor 1 wakeClient queryFailWorld = some (-1, w2)
        ∧ w2.n = 3 + 1
        ∧ w2.log = (afterSinglePoll wakeClient
            (afterIdentifyCommand wakeClient (afterSinglePoll wakeClient queryFailWorld 0)) 0).log
            ++ [readOp wakeClient CMD_RSP_BUF 10])
    ∧ ((query_poll wakeClient 1 identifyResponseFailWorld 0 =
          some (0, afterSinglePoll wakeClient identifyResponseFailWorld 0)
        ∧ query_poll wakeClient 1
            (afterIdentifyCommand wakeClient
              (afterSinglePoll wakeClient identifyResponseFailWorld 0)) 0 =
          some (0, afterSinglePoll wakeClient
            (afterIdentifyCommand wakeClient
              (afterSinglePoll wakeClient identifyResponseFailWorld 0)) 0)
        ∧ ((identifyResponseFailWorld.bus 3).ret ≠ 2
          ∧ (identifyResponseFailWorld.bus 3).data = []))
      ∧ ∃ w2, it7260_identify_capsensor 1 wakeClient identifyResponseFailWorld = some (-1, w2)
        ∧ w2.n = 3 + 1
        ∧ w2.log = (afterSinglePoll wakeClient
            (afterIdentifyCommand wakeClient
              (afterSinglePoll wakeClient identifyResponseFailWorld 0)) 0).log
            ++ [readOp wakeClient CMD_RSP_BUF 10]) :=
  ⟨⟨⟨rfl, rfl, by decide, by decide⟩,
      C11_failed_response_read_not_recognised wakeClient queryFailWorld 1 0 0
        (afterSinglePoll wakeClient queryFailWorld 0)
        (afterSinglePoll wakeClient
          (afterIdentifyCommand wakeClient (afterSinglePoll wakeClient queryFailWorld 0)) 0)
        rfl rfl ⟨by decide, by decide⟩⟩,
   ⟨⟨rfl, rfl, by decide, by decide⟩,
      C11_failed_response_read_not_recognised wakeClient identifyResponseFailWorld 1 0 0
        (afterSinglePoll wakeClient identifyResponseFailWorld 0)
        (afterSinglePoll wakeClient
          (afterIdentifyCommand wakeClient
            (afterSinglePoll wakeClient identifyResponseFailWorld 0)) 0)
        rfl rfl ⟨by decide, by decide⟩⟩⟩

/-- C11 as stated fails: both query poll reads fail with -5 and store
nothing, and the identification still returns 0, because the response buffer
holds the signature. -/
theorem C11_identify_succeeds_after_failed_query_read :
    (identifyQueryFailWorld.bus 0).ret ≠ 2
    ∧ (i2c_master_read_it7260 identifyQueryFailWorld wakeClient QUERY_BUF [0] 1).1 = -5
    ∧ (it7260_identify_capsensor 3 wakeClient identifyQueryFailWorld).map Prod.fst = some 0 := by
  decide

/-- C18: when the first busy poll sees k1 busy answers and then a ready one,
and the second sees k2 busy answers and then a ready one, the identification
terminates and its bus trace is k1 + 1 one-byte reads of region 0x80, one
write of the single byte 0x00 to region 0x20, k2 + 1 one-byte reads of region
0x80 and one 10-byte read of region 0xA0, in that order. -/
theorem C18_identify_bus_trace (client : i2c_client) (w : World) (fuel k1 k2 : Nat)
    (hf1 : k1 < fuel) (hf2 : k2 < fuel)
    (hbusy1 : ∀ i, i < k1 → answersBusy (w.bus (w.n + i)) = true)
    (hready1 : answersReady (w.bus (w.n + k1)) = true)
    (hbusy2 : ∀ i, i < k2 → answersBusy (w.bus (w.n + k1 + 2 + i)) = true)
    (hready2 : answersReady (w.bus (w.n + k1 + 2 + k2)) = true) :
    ∃ ret w2, it7260_identify_capsensor fuel client w = some (ret, w2)
      ∧ busOps (newCalls w.log w2.log) =
          List.replicate (k1 + 1) (readOp client QUERY_BUF 1)
          ++ [writeOp client CMD_BUF [0x00]]
          ++ List.replicate (k2 + 1) (readOp client QUERY_BUF 1)
          ++ [readOp client CMD_RSP_BUF 10]
      ∧ newCalls w.log w2.log = busOps (newCalls w.log w2.log) := by
  obtain ⟨w2, h, hlog⟩ := identify_run client w fuel k1 k2 hf1 hf2 hbusy1 hready1 hbusy2 hready2
  have hnew : newCalls w.log w2.log =
      List.replicate (k1 + 1) (readOp client QUERY_BUF 1)
        ++ [writeOp client CMD_BUF [0x00]]
        ++ List.replicate (k2 + 1) (readOp client QUERY_BUF 1)
        ++ [readOp client CMD_RSP_BUF 10] := by
    unfold newCalls
    rw [hlog]
    simp only [List.append_assoc]
    exact List.drop_left _ _
  have hbus : busOps (List.replicate (k1 + 1) (readOp client QUERY_BUF 1)
        ++ [writeOp client CMD_BUF [0x00]]
        ++ List.replicate (k2 + 1) (readOp client QUERY_BUF 1)
        ++ [readOp client CMD_RSP_BUF 10]) =
      List.replicate (k1 + 1) (readOp client QUERY_BUF 1)
        ++ [writeOp client CMD_BUF [0x00]]
        ++ List.replicate (k2 + 1) (readOp client QUERY_BUF 1)
        ++ [readOp client CMD_RSP_BUF 10] := by
    unfold busOps
    rw [List.filter_eq_self]
    intro e he
    simp only [List.mem_append, List.mem_replicate, List.mem_singleton] at he
    rcases he with ((⟨_, rfl⟩ | rfl) | ⟨_, rfl⟩) | rfl <;> rfl
  refine ⟨_, w2, h, ?_, ?_⟩
  · rw [hnew, hbus]
  · rw [hnew, hbus]

/-- One busy poll before the command and none after it. -/
theorem C18_identify_bus_trace_witness :
    ((1 < 3 ∧ 0 < 3)
      ∧ (∀ i, i < 1 → answersBusy (identifyWorld.bus (identifyWorld.n + i)) = true)
      ∧ answersReady (identifyWorld.bus (identifyWorld.n + 1)) = true
      ∧ (∀ i, i < 0 → answersBusy (identifyWorld.bus (identifyWorld.n + 1 + 2 + i)) = true)
      ∧ answersReady (identifyWorld.bus (identifyWorld.n + 1 + 2 + 0)) = true)
    ∧ ∃ ret w2, it7260_identify_capsensor 3 wakeClient identifyWorld = some (ret, w2)
      ∧ busOps (newCalls identifyWorld.log w2.log) =
          List.replicate (1 + 1) (readOp wakeClient QUERY_BUF 1)
          ++ [writeOp wakeClient CMD_BUF [0x00]]
          ++ List.replicate (0 + 1) (readOp wakeClient QUERY_BUF 1)
          ++ [readOp wakeClient CMD_RSP_BUF 10]
      ∧ newCalls identifyWorld.log w2.log = busOps (newCalls identifyWorld.log w2.log) :=
  ⟨⟨⟨by decide, by decide⟩, by decide, by decide, by decide, by decide⟩,
   C18_identify_bus_trace wakeClient identifyWorld 3 1 0
     (by decide) (by decide) (by decide) (by decide) (by decide) (by decide)⟩

/-! ## Results of the bus transport -/

/-- The read reports `len_data` when the adapter answers 2, and the adapter's
own answer otherwise. -/
theorem read_result (w : World) (client : i2c_client) (buf_index : Nat) (buf_data : List Nat)
    (len_data : Nat) :
    (i2c_master_read_it7260 w client buf_index buf_data len_data).1 =
      if (w.bus w.n).ret = 2 then (len_data : Int) else (w.bus w.n).ret := rfl

/-- C12 (evaluation): the adapter executes one of the two messages of a read
and reports 1; the read returns 1, which is not negative, and for a 1-byte
read equals the length a successful read returns. -/
theorem C12_short_read_reported_as_count :
    (shortReadWorld.bus shortReadWorld.n).ret = 1
    ∧ (i2c_master_read_it7260 shortReadWorld wakeClient POINT_INFO_BUF
        (List.replicate 14 0) 14).1 = 1
    ∧ ¬ ((i2c_master_read_it7260 shortReadWorld wakeClient POINT_INFO_BUF
        (List.replicate 14 0) 14).1 < 0)
    ∧ (i2c_master_read_it7260 shortReadWorld wakeClient QUERY_BUF [0] 1).1 = ((1 : Nat) : Int) := by
  decide

/-- C13 (evaluation): an accepted write returns 2, the size of the staging
buffer, for a 3-byte payload and for a 1-byte payload alike; it returns the
payload length in neither case. -/
theorem C13_accepted_write_reports_buffer_size :
    (writeAcceptedWorld.bus writeAcceptedWorld.n).ret = 1
    ∧ (i2c_master_write_it7260 writeAcceptedWorld wakeClient CMD_BUF [0x04, 0x00, 0x02] 3).1 = 2
    ∧ (i2c_master_write_it7260 writeAcceptedWorld wakeClient CMD_BUF [0x04, 0x00, 0x02] 3).1 ≠ 3
    ∧ (i2c_master_write_it7260 writeAcceptedWorld wakeClient CMD_BUF [0x00] 1).1 = 2
    ∧ (i2c_master_write_it7260 writeAcceptedWorld wakeClient CMD_BUF [0x00] 1).1 ≠ 1 := by
  decide

/-- C20 (evaluation): the write of the suspend command builds a message of
1 + 3 = 4 bytes in the 2-byte staging buffer, so the copy and the transfer
run past its end; the write of the identify command (1 + 1 = 2 bytes) fits. -/
theorem C20_suspend_write_overruns_staging_buffer :
    (it7260_ts_suspend wakePriv wakeClient writeAcceptedWorld).2.log =
      [Effect.enable_irq_wake 7,
       Effect.i2c_transfer 0x46 [⟨MsgFlag.I2C_M_WR, 4, [0x20, 0x04, 0x00, 0x02]⟩]]
    ∧ ¬ (1 + 3 ≤ WRITE_BUF_SIZE)
    ∧ (it7260_ts_suspend wakePriv wakeClient writeAcceptedWorld).2.log.any overruns = true
    ∧ 1 + 1 ≤ WRITE_BUF_SIZE
    ∧ (it7260_identify_capsensor 3 wakeClient identifyWorld).map
        (fun r => r.2.log.any overruns) = some false := by
  decide

/-! ## Resume -/

/-- C14: on a wake-capable session the resume entry point issues exactly one
bus transaction, the 1-byte read of the query region 0x80, then disarms the
wake source, and returns 0 whatever the read returned; on a session that is
not wake-capable it returns -1 and makes no call at all. -/
theorem C14_resume_reads_query_once (priv : it7260_ts_priv) (client : i2c_client)
    (w : World) :
    (it7260_ts_resume priv client w).1 = (if client.may_wakeup = true then 0 else -1)
    ∧ newCalls w.log (it7260_ts_resume priv client w).2.log =
        (if client.may_wakeup = true then
          [readOp client QUERY_BUF 1, Effect.disable_irq_wake priv.irq]
        else [])
    ∧ busOps (newCalls w.log (it7260_ts_resume priv client w).2.log) =
        (if client.may_wakeup = true then [readOp client QUERY_BUF 1] else [])
    ∧ (it7260_ts_resume priv client w).2.n = w.n + (if client.may_wakeup = true then 1 else 0) := by
  cases hm : client.may_wakeup with
  | false =>
    have hr : it7260_ts_resume priv client w = (-1, w) := by
      unfold it7260_ts_resume
      simp [hm]
    rw [hr]
    simp [newCalls, busOps]
  | true =>
    have hr : it7260_ts_resume priv client w =
        (0, ⟨w.bus, w.n + 1,
          (w.log ++ [readOp client QUERY_BUF 1]) ++ [Effect.disable_irq_wake priv.irq]⟩) := by
      unfold it7260_ts_resume
      simp only [hm, if_true]
      rfl
    rw [hr]
    simp [newCalls, busOps, readOp, isBusOp]

/-! ## Values handed to the event sink -/

theorem getD_lt_of_all (l : List Nat) (h : ∀ b ∈ l, b < 256) : ∀ i, l.getD i 0 < 256 := by
  induction l with
  | nil => intro i; simp
  | cons a as ih =>
    intro i
    cases i with
    | zero => exact h a (List.mem_cons_self a as)
    | succ j =>
      have := ih (fun b hb => h b (List.mem_cons_of_mem a hb)) j
      simpa using this

theorem storeBytes_all_lt : ∀ (buf data : List Nat) (len : Nat), (∀ b ∈ buf, b < 256) →
    ∀ b ∈ storeBytes buf data len, b < 256 := by
  intro buf
  induction buf with
  | nil =>
    intro data len _ b hb
    simp [storeBytes] at hb
  | cons a as ih =>
    intro data len h b hb
    cases len with
    | zero =>
      have : storeBytes (a :: as) data 0 = a :: as := by cases data <;> rfl
      rw [this] at hb
      exact h b hb
    | succ m =>
      cases data with
      | nil => exact h b hb
      | cons d ds =>
        have hs : storeBytes (a :: as) (d :: ds) (m + 1) = (d % 256) :: storeBytes as ds m := rfl
        rw [hs] at hb
        rcases List.mem_cons.mp hb with rfl | hb2
        · exact Nat.mod_lt _ (by decide)
        · exact ih ds m (fun x hx => h x (List.mem_cons_of_mem a hx)) b hb2

/-- Every byte of the report buffer is below 256. -/
theorem reportBlock_byte_lt (w : World) (i : Nat) : (reportBlock w).getD i 0 < 256 := by
  apply getD_lt_of_all
  unfold reportBlock
  apply storeBytes_all_lt
  intro b hb
  have : b = 0 := List.eq_of_mem_replicate hb
  omega

/-- The value of `xpos` without the truncation to 16 bits, and its bound. -/
theorem xpos_value (buf : List Nat) (h2 : buf.getD 2 0 < 256) :
    xpos buf = (((buf.getD 3 0) &&& 0x0F) <<< 8) ||| buf.getD 2 0 ∧ xpos buf < 4096 := by
  have h1 : (buf.getD 3 0) &&& 0x0F ≤ 0x0F := Nat.and_le_right
  have h3 : ((buf.getD 3 0) &&& 0x0F) <<< 8 < 2 ^ 12 := by
    rw [Nat.shiftLeft_eq]; omega
  have h4 : buf.getD 2 0 < 2 ^ 12 := by omega
  have h5 : (((buf.getD 3 0) &&& 0x0F) <<< 8) ||| buf.getD 2 0 < 2 ^ 12 :=
    Nat.or_lt_two_pow h3 h4
  have h6 : xpos buf = (((buf.getD 3 0) &&& 0x0F) <<< 8) ||| buf.getD 2 0 := by
    unfold xpos
    exact Nat.mod_eq_of_lt (by omega)
  exact ⟨h6, by rw [h6]; omega⟩

/-- The value of `ypos` without the truncation to 16 bits, and its bound. -/
theorem ypos_value (buf : List Nat) (h4 : buf.getD 4 0 < 256) :
    ypos buf = (((buf.getD 3 0) &&& 0xF0) <<< 4) ||| buf.getD 4 0 ∧ ypos buf < 4096 := by
  have h1 : (buf.getD 3 0) &&& 0xF0 ≤ 0xF0 := Nat.and_le_right
  have h3 : ((buf.getD 3 0) &&& 0xF0) <<< 4 < 2 ^ 12 := by
    rw [Nat.shiftLeft_eq]; omega
  have h5 : buf.getD 4 0 < 2 ^ 12 := by omega
  have h6 : (((buf.getD 3 0) &&& 0xF0) <<< 4) ||| buf.getD 4 0 < 2 ^ 12 :=
    Nat.or_lt_two_pow h3 h5
  have h7 : ypos buf = (((buf.getD 3 0) &&& 0xF0) <<< 4) ||| buf.getD 4 0 := by
    unfold ypos
    exact Nat.mod_eq_of_lt (by omega)
  exact ⟨h7, by rw [h7]; omega⟩

/-- The calls into the event sink of a decode cycle on a coordinate report. -/
theorem poscheck_touch_events (priv : it7260_ts_priv) (w : World)
    (hq : queryByte w &&& 0x80 ≠ 0) (htag : (reportBlock w).getD 0 0 ≠ 0x41) :
    inputEvents (it7260_ts_poscheck priv w).log = inputEvents w.log ++
      [Effect.input_report_key KeyCode.BTN_TOUCH ((reportBlock w).getD 5 0 != 0),
       Effect.input_report_abs AbsAxis.ABS_X (ypos (reportBlock w) : Nat),
       Effect.input_report_abs AbsAxis.ABS_Y (xpos (reportBlock w) : Nat),
       Effect.input_report_abs AbsAxis.ABS_PRESSURE ((reportBlock w).getD 5 0 : Nat),
       Effect.input_sync] := by
  rw [poscheck_unfold, if_neg hq, if_neg htag]
  simp [poscheck_out_log, afterReport_log, emit_log, inputEvents, isInputEvent, readOp]

/-- C15 as stated fails: on the scenario report the value handed to the sink
for the horizontal axis is 0x245 = 581, not 0x310 = 784. -/
theorem C15_horizontal_axis_is_not_0x310 :
    queryByte touchWorld = 0x80
    ∧ reportBlock touchWorld = [0x00, 0x00, 0x10, 0x23, 0x45, 0x07, 0, 0, 0, 0, 0, 0, 0, 0]
    ∧ Effect.input_report_abs AbsAxis.ABS_X 784 ∉
        inputEvents (it7260_ts_poscheck wakePriv touchWorld).log
    ∧ Effect.input_report_abs AbsAxis.ABS_X 581 ∈
        inputEvents (it7260_ts_poscheck wakePriv touchWorld).log := by
  decide

/-- C15 (amended): with query byte 0x80 and report block
[0x00, 0x00, 0x10, 0x23, 0x45, 0x07, 0, ...] the decode cycle hands to the
sink contact down, horizontal axis 0x245 = 581, vertical axis 0x310 = 784,
pressure 7 and the synchronization marker. -/
theorem C15_scenario_touch_event (priv : it7260_ts_priv) :
    inputEvents (it7260_ts_poscheck priv touchWorld).log =
      [Effect.input_report_key KeyCode.BTN_TOUCH true,
       Effect.input_report_abs AbsAxis.ABS_X 581,
       Effect.input_report_abs AbsAxis.ABS_Y 784,
       Effect.input_report_abs AbsAxis.ABS_PRESSURE 7,
       Effect.input_sync] := by
  have hq : queryByte touchWorld &&& 0x80 ≠ 0 := by decide
  have htag : (reportBlock touchWorld).getD 0 0 ≠ 0x41 := by decide
  have hx : xpos (reportBlock touchWorld) = 784 := by decide
  have hy : ypos (reportBlock touchWorld) = 581 := by decide
  have hp : (reportBlock touchWorld).getD 5 0 = 7 := by decide
  rw [poscheck_touch_events priv touchWorld hq htag, hx, hy, hp]
  rfl

/-- C16 as stated fails: a coordinate report whose bytes 2 to 5 are 0xFF gives
horizontal axis 4095, vertical axis 4095 and pressure 255, all outside the
ranges declared at session setup. -/
theorem C16_touch_event_outside_declared_ranges :
    inputEvents (it7260_ts_poscheck wakePriv maxTouchWorld).log =
      [Effect.input_report_key KeyCode.BTN_TOUCH true,
       Effect.input_report_abs AbsAxis.ABS_X 4095,
       Effect.input_report_abs AbsAxis.ABS_Y 4095,
       Effect.input_report_abs AbsAxis.ABS_PRESSURE 255,
       Effect.input_sync]
    ∧ (inputEvents (it7260_ts_poscheck wakePriv maxTouchWorld).log).map inDeclaredRange =
        [true, false, false, false, true] := by
  decide

/-- C16 (amended): every touch event the decode cycle hands to the sink has
its horizontal and vertical axis values in [0, 4095] and its pressure in
[0, 255]. -/
theorem C16_touch_event_raw_ranges (priv : it7260_ts_priv) (w : World)
    (hq : queryByte w &&& 0x80 ≠ 0) (htag : (reportBlock w).getD 0 0 ≠ 0x41) :
    ∃ x y p : Nat,
      inputEvents (it7260_ts_poscheck priv w).log = inputEvents w.log ++
        [Effect.input_report_key KeyCode.BTN_TOUCH (p != 0),
         Effect.input_report_abs AbsAxis.ABS_X x,
         Effect.input_report_abs AbsAxis.ABS_Y y,
         Effect.input_report_abs AbsAxis.ABS_PRESSURE p,
         Effect.input_sync]
      ∧ x ≤ 4095 ∧ y ≤ 4095 ∧ p ≤ 255 := by
  refine ⟨ypos (reportBlock w), xpos (reportBlock w), (reportBlock w).getD 5 0,
    poscheck_touch_events priv w hq htag, ?_, ?_, ?_⟩
  · have := (ypos_value (reportBlock w) (reportBlock_byte_lt w 4)).2
    omega
  · have := (xpos_value (reportBlock w) (reportBlock_byte_lt w 2)).2
    omega
  · have := reportBlock_byte_lt w 5
    omega

/-- The report with bytes 2 to 5 at 0xFF attains the three upper bounds. -/
theorem C16_touch_event_raw_ranges_witness :
    (queryByte maxTouchWorld &&& 0x80 ≠ 0 ∧ (reportBlock maxTouchWorld).getD 0 0 ≠ 0x41)
    ∧ ∃ x y p : Nat,
      inputEvents (it7260_ts_poscheck wakePriv maxTouchWorld).log =
        inputEvents maxTouchWorld.log ++
        [Effect.input_report_key KeyCode.BTN_TOUCH (p != 0),
         Effect.input_report_abs AbsAxis.ABS_X x,
         Effect.input_report_abs AbsAxis.ABS_Y y,
         Effect.input_report_abs AbsAxis.ABS_PRESSURE p,
         Effect.input_sync]
      ∧ x ≤ 4095 ∧ y ≤ 4095 ∧ p ≤ 255 :=
  ⟨⟨by decide, by decide⟩,
   C16_touch_event_raw_ranges wakePriv maxTouchWorld (by decide) (by decide)⟩

/-- C19: for a report block b with b[0] other than 0x41, read after a query
byte with bit 7 set, the decode cycle hands to the sink exactly
BTN_TOUCH = (b[5] != 0), ABS_X = ((b[3] & 0xF0) << 4) | b[4],
ABS_Y = ((b[3] & 0x0F) << 8) | b[2], ABS_PRESSURE = b[5] and the
synchronization marker, in that order; both axis values are below 4096, and a
report that agrees with b on bytes 0, 2, 3, 4 and 5 gives the same calls. -/
theorem C19_touch_event_sequence (priv : it7260_ts_priv) (w : World)
    (hq : queryByte w &&& 0x80 ≠ 0) (htag : (reportBlock w).getD 0 0 ≠ 0x41) :
    inputEvents (it7260_ts_poscheck priv w).log = inputEvents w.log ++
      [Effect.input_report_key KeyCode.BTN_TOUCH ((reportBlock w).getD 5 0 != 0),
       Effect.input_report_abs AbsAxis.ABS_X
         (((((reportBlock w).getD 3 0) &&& 0xF0) <<< 4) ||| (reportBlock w).getD 4 0 : Nat),
       Effect.input_report_abs AbsAxis.ABS_Y
         (((((reportBlock w).getD 3 0) &&& 0x0F) <<< 8) ||| (reportBlock w).getD 2 0 : Nat),
       Effect.input_report_abs AbsAxis.ABS_PRESSURE ((reportBlock w).getD 5 0 : Nat),
       Effect.input_sync]
    ∧ ((((reportBlock w).getD 3 0) &&& 0xF0) <<< 4) ||| (reportBlock w).getD 4 0 < 4096
    ∧ ((((reportBlock w).getD 3 0) &&& 0x0F) <<< 8) ||| (reportBlock w).getD 2 0 < 4096
    ∧ ∀ w2 : World, queryByte w2 &&& 0x80 ≠ 0 →
        (reportBlock w2).getD 0 0 = (reportBlock w).getD 0 0 →
        (reportBlock w2).getD 2 0 = (reportBlock w).getD 2 0 →
        (reportBlock w2).getD 3 0 = (reportBlock w).getD 3 0 →
        (reportBlock w2).getD 4 0 = (reportBlock w).getD 4 0 →
        (reportBlock w2).getD 5 0 = (reportBlock w).getD 5 0 →
        newCalls (inputEvents w2.log) (inputEvents (it7260_ts_poscheck priv w2).log) =
          newCalls (inputEvents w.log) (inputEvents (it7260_ts_poscheck priv w).log) := by
  obtain ⟨hx, hxlt⟩ := xpos_value (reportBlock w) (reportBlock_byte_lt w 2)
  obtain ⟨hy, hylt⟩ := ypos_value (reportBlock w) (reportBlock_byte_lt w 4)
  refine ⟨?_, ?_, ?_, ?_⟩
  · rw [poscheck_touch_events priv w hq htag, hx, hy]
  · rw [← hy]; exact hylt
  · rw [← hx]; exact hxlt
  · intro w2 hq2 e0 e2 e3 e4 e5
    have htag2 : (reportBlock w2).getD 0 0 ≠ 0x41 := by rw [e0]; exact htag
    obtain ⟨hx2, _⟩ := xpos_value (reportBlock w2) (reportBlock_byte_lt w2 2)
    obtain ⟨hy2, _⟩ := ypos_value (reportBlock w2) (reportBlock_byte_lt w2 4)
    rw [poscheck_touch_events priv w2 hq2 htag2, poscheck_touch_events priv w hq htag,
      hx2, hy2, hx, hy, e2, e3, e4, e5]
    unfold newCalls
    rw [List.drop_left, List.drop_left]

/-- The scenario report: horizontal axis 0x245, vertical axis 0x310. -/
theorem C19_touch_event_sequence_witness :
    (queryByte touchWorld &&& 0x80 ≠ 0 ∧ (reportBlock touchWorld).getD 0 0 ≠ 0x41)
    ∧ (inputEvents (it7260_ts_poscheck wakePriv touchWorld).log = inputEvents touchWorld.log ++
      [Effect.input_report_key KeyCode.BTN_TOUCH ((reportBlock touchWorld).getD 5 0 != 0),
       Effect.input_report_abs AbsAxis.ABS_X
         (((((reportBlock touchWorld).getD 3 0) &&& 0xF0) <<< 4) |||
           (reportBlock touchWorld).getD 4 0 : Nat),
       Effect.input_report_abs AbsAxis.ABS_Y
         (((((reportBlock touchWorld).getD 3 0) &&& 0x0F) <<< 8) |||
           (reportBlock touchWorld).getD 2 0 : Nat),
       Effect.input_report_abs AbsAxis.ABS_PRESSURE ((reportBlock touchWorld).getD 5 0 : Nat),
       Effect.input_sync]
    ∧ ((((reportBlock touchWorld).getD 3 0) &&& 0xF0) <<< 4) |||
        (reportBlock touchWorld).getD 4 0 < 4096
    ∧ ((((reportBlock touchWorld).getD 3 0) &&& 0x0F) <<< 8) |||
        (reportBlock touchWorld).getD 2 0 < 4096
    ∧ ∀ w2 : World, queryByte w2 &&& 0x80 ≠ 0 →
        (reportBlock w2).getD 0 0 = (reportBlock touchWorld).getD 0 0 →
        (reportBlock w2).getD 2 0 = (reportBlock touchWorld).getD 2 0 →
        (reportBlock w2).getD 3 0 = (reportBlock touchWorld).getD 3 0 →
        (reportBlock w2).getD 4 0 = (reportBlock touchWorld).getD 4 0 →
        (reportBlock w2).getD 5 0 = (reportBlock touchWorld).getD 5 0 →
        newCalls (inputEvents w2.log) (inputEvents (it7260_ts_poscheck wakePriv w2).log) =
          newCalls (inputEvents touchWorld.log)
            (inputEvents (it7260_ts_poscheck wakePriv touchWorld).log)) :=
  ⟨⟨by decide, by decide⟩,
   C19_touch_event_sequence wakePriv touchWorld (by decide) (by decide)⟩

/-- C17: a decode cycle either hands nothing to the event sink, or hands it
one or more key or axis updates followed by exactly one synchronization
marker, the last call of the cycle into the sink. -/
theorem C17_one_sync_marker_last (priv : it7260_ts_priv) (w : World) :
    inputEvents (newCalls w.log (it7260_ts_poscheck priv w).log) = []
    ∨ ∃ updates, updates ≠ []
        ∧ inputEvents (newCalls w.log (it7260_ts_poscheck priv w).log) =
            updates ++ [Effect.input_sync]
        ∧ Effect.input_sync ∉ updates := by
  rw [poscheck_unfold]
  split
  · left
    simp [newCalls, poscheck_out_log, afterQuery_log, inputEvents, isInputEvent, readOp]
  · split
    · split
      · right
        refine ⟨[Effect.input_report_key KeyCode.KEY_HOME ((reportBlock w).getD 2 0 != 0)], ?_⟩
        simp [newCalls, poscheck_out_log, afterReport_log, emit_log, inputEvents, isInputEvent,
          readOp]
      · split
        · right
          refine ⟨[Effect.input_report_key KeyCode.KEY_MENU ((reportBlock w).getD 2 0 != 0)], ?_⟩
          simp [newCalls, poscheck_out_log, afterReport_log, emit_log, inputEvents,
            isInputEvent, readOp]
        · split
          · right
            refine ⟨[Effect.input_report_key KeyCode.KEY_BACK ((reportBlock w).getD 2 0 != 0)],
              ?_⟩
            simp [newCalls, poscheck_out_log, afterReport_log, emit_log, inputEvents,
              isInputEvent, readOp]
          · split
            · right
              refine ⟨[Effect.input_report_key KeyCode.KEY_POWER
                ((reportBlock w).getD 2 0 != 0)], ?_⟩
              simp [newCalls, poscheck_out_log, afterReport_log, emit_log, inputEvents,
                isInputEvent, readOp]
            · left
              simp [newCalls, poscheck_out_log, afterReport_log, inputEvents, isInputEvent,
                readOp]
    · right
      refine ⟨[Effect.input_report_key KeyCode.BTN_TOUCH ((reportBlock w).getD 5 0 != 0),
        Effect.input_report_abs AbsAxis.ABS_X (ypos (reportBlock w) : Nat),
        Effect.input_report_abs AbsAxis.ABS_Y (xpos (reportBlock w) : Nat),
        Effect.input_report_abs AbsAxis.ABS_PRESSURE ((reportBlock w).getD 5 0 : Nat)], ?_⟩
      simp [newCalls, poscheck_out_log, afterReport_log, emit_log, inputEvents, isInputEvent,
        readOp]

end IT7260
